import Mathlib

/-!
Shallow embedding of the LeadValidationReport pipeline
(src/src/validation/fraud_detection.py, src/src/validation/rules.py,
src/src/utils/validation_parser.py, src/lead_validation_etl.py,
src/config/settings.py) and proofs about the claims of its specification.

Python values that can appear in a lead/task record or in a decoded JSON
payload are modelled by the inductive type `PVal`; a Python dict is an
association list in insertion order.  Scores are modelled by `ℚ` (the
Python code computes with floats; every constant involved is a decimal
literal that is exact in `ℚ`).  A Python function that can raise is
modelled in the `Except String` monad, the message standing for the
exception text.  External library calls (json.loads, email_validator,
phonenumbers, fuzzywuzzy) are parameters of the embedding.
-/

set_option maxRecDepth 10000

-- Allow the kernel-reducible rational arithmetic of Batteries to unfold,
-- so that concrete runs of the embedded engines evaluate by rfl/decide.
unseal Rat.ofScientific Rat.mul Rat.add Rat.sub Rat.inv

namespace LVR

/-- ASCII whitespace recognised by Python str.strip and the regex class
backslash-s. -/
def isPyWs (c : Char) : Bool :=
  c = ' ' || c = '\t' || c = '\n' || c = '\r' || c = '\x0b' || c = '\x0c'

/-- Python str.lower (ASCII part; the source only compares ASCII tokens). -/
def lowerStr (s : String) : String := String.mk (s.toList.map Char.toLower)

/-- Python str.strip on a character list. -/
def stripL (cs : List Char) : List Char :=
  ((cs.dropWhile isPyWs).reverse.dropWhile isPyWs).reverse

/-- Python str.strip. -/
def strip (s : String) : String := String.mk (stripL s.toList)

/-- Substring test on character lists (Python `in` on str). -/
def isInfixL (pat : List Char) : List Char → Bool
  | [] => pat.isEmpty
  | c :: cs => pat.isPrefixOf (c :: cs) || isInfixL pat cs

/-- The suffix that follows the first occurrence of `pat`, if `pat` occurs. -/
def afterFirstL (pat : List Char) : List Char → Option (List Char)
  | [] => if pat.isEmpty then some [] else none
  | c :: cs =>
    if pat.isPrefixOf (c :: cs) then some ((c :: cs).drop pat.length)
    else afterFirstL pat cs

/-- The prefix that precedes the first occurrence of `pat` (all of the list
when `pat` does not occur). -/
def takeUntilL (pat : List Char) : List Char → List Char
  | [] => []
  | c :: cs => if pat.isPrefixOf (c :: cs) then [] else c :: takeUntilL pat cs

/-- Does the list contain a run of at least `n` consecutive decimal digits
(regex backslash-d with a counted repetition, searched anywhere)? -/
def hasDigitRun (n : Nat) : List Char → Bool
  | [] => n = 0
  | c :: cs => ((c :: cs).takeWhile (·.isDigit)).length ≥ n || hasDigitRun n cs

/-- A Python value as it appears in task/lead records and decoded JSON. -/
inductive PVal where
  | pnone
  | pbool (b : Bool)
  | pint (n : Int)
  | pfloat (q : ℚ)
  | pstr (s : String)
  | plist (xs : List PVal)
  | pdict (fields : List (String × PVal))

/-- A Python dict: an association list in insertion order (keys unique in
every dict the source builds). -/
abbrev PDict := List (String × PVal)

/-- Python truthiness. -/
def pvalTruthy : PVal → Bool
  | .pnone => false
  | .pbool b => b
  | .pint n => n != 0
  | .pfloat q => decide (q ≠ 0)
  | .pstr s => s ≠ ""
  | .plist xs => !xs.isEmpty
  | .pdict fs => !fs.isEmpty

/-- dict.get(k) — None (absent) is `none`. -/
def dictGet (d : PDict) (k : String) : Option PVal := List.lookup k d

/-- dict.get(k, default). -/
def dictGetD (d : PDict) (k : String) (dflt : PVal) : PVal :=
  (List.lookup k d).getD dflt

/-- Truthiness of an Optional[...] Python value (None is falsy). -/
def optTruthy : Option PVal → Bool
  | some v => pvalTruthy v
  | none => false

/-- Truthiness of dict.get(k) (an absent key reads as None, hence falsy). -/
def getTruthy (d : PDict) (k : String) : Bool := optTruthy (dictGet d k)

/-- Insert one key into a dict with Python semantics: replace in place if
the key exists, append otherwise. -/
def pyInsert (d : PDict) (k : String) (v : PVal) : PDict :=
  if (List.lookup k d).isSome then
    d.map (fun kv => if kv.1 = k then (kv.1, v) else kv)
  else d ++ [(k, v)]

/-- dict.update. -/
def pyUpdate (d u : PDict) : PDict :=
  u.foldl (fun acc kv => pyInsert acc kv.1 kv.2) d

/-- A `.lower()` method call: succeeds on str, raises AttributeError on
every other Python value (in particular on None). -/
def pyLowerVal : PVal → Except String String
  | .pstr s => .ok (lowerStr s)
  | _ => .error "AttributeError: object has no attribute lower"

/-! ## Fraud detection engine — src/src/validation/fraud_detection.py -/

namespace FraudDetection

/-- Result of one fraud sub-check: a dict with keys score and indicators. -/
structure SubResult where
  score : ℚ
  indicators : List String

/-- fake_phone_patterns from FraudDetectionEngine.__init__. -/
def fake_phone_patterns : List String :=
  ["1234567890", "0000000000", "1111111111", "5555555555", "8888888888",
   "9999999999"]

/-- fake_name_patterns from FraudDetectionEngine.__init__. -/
def fake_name_patterns : List String :=
  ["test", "fake", "john doe", "jane doe", "admin",
   "user", "sample", "demo", "example", "unknown",
   "asdf", "qwerty", "temp", "temporary"]

/-- suspicious_companies from FraudDetectionEngine.__init__. -/
def suspicious_companies : List String :=
  ["test", "fake", "company", "corp", "inc", "llc",
   "business", "enterprise", "solutions", "services",
   "consulting", "group", "organization", "n/a", "none"]

/-- disposable_domains from _check_email_fraud. -/
def disposable_domains : List String :=
  ["10minutemail", "tempmail", "throwaway", "guerrillamail",
   "mailinator", "yopmail", "temp-mail"]

/-- The newline-free prefix: the characters the regex dot can cross. -/
def nlFree (cs : List Char) : List Char := cs.takeWhile (· ≠ '\n')

/-- re.match of the pattern `test.*@.*` (anchored at the start, dot
excludes newline, trailing part unconstrained). -/
def matchTestAt (cs : List Char) : Bool :=
  "test".toList.isPrefixOf cs && (nlFree (cs.drop 4)).contains '@'

/-- re.match of the pattern `fake.*@.*`. -/
def matchFakeAt (cs : List Char) : Bool :=
  "fake".toList.isPrefixOf cs && (nlFree (cs.drop 4)).contains '@'

/-- re.match of a pattern of the form `.*LIT` or `.*LIT.*` (LIT a literal
without newline): LIT must occur with only non-newline characters before
it, i.e. inside the newline-free prefix. -/
def matchDotStarLit (lit : String) (cs : List Char) : Bool :=
  isInfixL lit.toList (nlFree cs)

/-- re.match of the pattern `.*@temp.*\.com`: an occurrence of `@temp`
inside the newline-free prefix, followed (after non-newline characters)
by `.com`. -/
def matchTempCom (cs : List Char) : Bool :=
  match afterFirstL "@temp".toList (nlFree cs) with
  | some rest => isInfixL ".com".toList rest
  | none => false

/-- Disjunction of the nine fake_email_patterns regexes of
FraudDetectionEngine.__init__, in source order. -/
def matchesFakeEmailPattern (cs : List Char) : Bool :=
  matchTestAt cs || matchFakeAt cs ||
  matchDotStarLit "@test.com" cs || matchDotStarLit "@fake.com" cs ||
  matchDotStarLit "@example.com" cs ||
  matchTempCom cs ||
  matchDotStarLit "@throwaway" cs || matchDotStarLit "@guerrilla" cs ||
  matchDotStarLit "@mailinator" cs

/-- email_lower.split at the first at-sign, index 1 — empty when there is
no at-sign. -/
def emailDomain (cs : List Char) : List Char :=
  match afterFirstL ['@'] cs with
  | some rest => rest.takeWhile (· ≠ '@')
  | none => []

/-- FraudDetectionEngine._check_email_fraud. -/
def check_email_fraud (email : Option PVal) : Except String SubResult :=
  match email with
  | none => .ok ⟨0, []⟩
  | some v =>
    if ¬ pvalTruthy v then .ok ⟨0, []⟩
    else
      match v with
      | .pstr s =>
        let el := (lowerStr s).toList
        if matchesFakeEmailPattern el then
          .ok ⟨1, ["Fake email pattern: " ++ s]⟩
        else
          let domain := emailDomain el
          let disp := disposable_domains.find? (fun p => isInfixL p.toList domain)
          let score0 : ℚ := if disp.isSome then 0.9 else 0
          let ind0 : List String :=
            if disp.isSome then
              ["Disposable email domain: " ++ String.mk domain]
            else []
          if hasDigitRun 8 el then
            .ok ⟨max score0 0.6, ind0 ++ ["Email contains long number sequence"]⟩
          else .ok ⟨score0, ind0⟩
      | _ => .error "AttributeError: object has no attribute lower"

/-- FraudDetectionEngine._check_phone_fraud. -/
def check_phone_fraud (phone : Option PVal) : Except String SubResult :=
  match phone with
  | none => .ok ⟨0, []⟩
  | some v =>
    if ¬ pvalTruthy v then .ok ⟨0, []⟩
    else
      match v with
      | .pstr s =>
        let clean := String.mk (s.toList.filter (·.isDigit))
        if fake_phone_patterns.contains clean then
          .ok ⟨1, ["Fake phone pattern: " ++ s]⟩
        else
          let few := clean.toList.eraseDups.length ≤ 2 && clean.toList.length ≥ 10
          let score1 : ℚ := if few then 0.9 else 0
          let ind1 : List String := if few then ["Phone has too few unique digits"] else []
          let seq := (["1234567890", "0123456789", "9876543210"]).contains clean
          let score2 : ℚ := if seq then 0.95 else score1
          let ind2 := ind1 ++ (if seq then ["Sequential phone number pattern"] else [])
          .ok ⟨score2, ind2⟩
      | _ => .error "TypeError: expected string or bytes-like object"

/-- FraudDetectionEngine._check_name_fraud. -/
def check_name_fraud (first_name last_name : Option PVal) :
    Except String SubResult :=
  match first_name, last_name with
  | some (.pstr f), some (.pstr l) =>
    if f = "" || l = "" then .ok ⟨0, []⟩
    else
      let full := lowerStr (f ++ " " ++ l)
      let pat := fake_name_patterns.find? (fun p => isInfixL p.toList full.toList)
      let score0 : ℚ := if pat.isSome then 0.8 else 0
      let ind0 : List String :=
        match pat with
        | some p => ["Suspicious name pattern: " ++ p]
        | none => []
      let same := lowerStr f = lowerStr l
      let score1 : ℚ := if same then max score0 0.7 else score0
      let ind1 := ind0 ++ (if same then ["Identical first and last name"] else [])
      let single := (strip f).length = 1 || (strip l).length = 1
      let score2 : ℚ := if single then max score1 0.5 else score1
      let ind2 := ind1 ++ (if single then ["Single character name"] else [])
      .ok ⟨score2, ind2⟩
  | f, l =>
    -- at least one side is absent, falsy, or not a string
    if !optTruthy f || !optTruthy l then .ok ⟨0, []⟩
    else .error "AttributeError: object has no attribute lower"

/-- FraudDetectionEngine._check_company_fraud. -/
def check_company_fraud (company : Option PVal) : Except String SubResult :=
  match company with
  | none => .ok ⟨0, []⟩
  | some v =>
    if ¬ pvalTruthy v then .ok ⟨0, []⟩
    else
      match v with
      | .pstr c =>
        let cl := strip (lowerStr c)
        let gen := suspicious_companies.contains cl
        let score0 : ℚ := if gen then 0.6 else 0
        let ind0 : List String := if gen then ["Generic company name: " ++ c] else []
        let short := cl.length ≤ 2
        let score1 : ℚ := if short then max score0 0.4 else score0
        let ind1 := ind0 ++ (if short then ["Company name too short"] else [])
        .ok ⟨score1, ind1⟩
      | _ => .error "AttributeError: object has no attribute lower"

/-- FraudDetectionEngine._check_pattern_consistency.  The three fields are
fetched with an empty-string default and `.lower()` is called on the
result, so a field explicitly bound to None (or any non-string) raises. -/
def check_pattern_consistency (lead_data : PDict) : Except String SubResult := do
  let email ← pyLowerVal (dictGetD lead_data "Email" (.pstr ""))
  let first_name ← pyLowerVal (dictGetD lead_data "FirstName" (.pstr ""))
  let last_name ← pyLowerVal (dictGetD lead_data "LastName" (.pstr ""))
  if email ≠ "" && first_name ≠ "" && last_name ≠ "" then
    if ¬ isInfixL first_name.toList email.toList
        && ¬ isInfixL last_name.toList email.toList then
      pure ⟨0.3, ["Name not reflected in email address"]⟩
    else pure ⟨0, []⟩
  else pure ⟨0, []⟩

/-- FraudDetectionEngine._determine_risk_level. -/
def determine_risk_level (fraud_score : ℚ) : String :=
  if fraud_score ≥ 0.8 then "CRITICAL"
  else if fraud_score ≥ 0.6 then "HIGH"
  else if fraud_score ≥ 0.4 then "MEDIUM"
  else if fraud_score ≥ 0.2 then "LOW"
  else "MINIMAL"

/-- The dict returned by FraudDetectionEngine.calculate_fraud_score. -/
structure FraudResult where
  fraud_score : ℚ
  fraud_indicators : List String
  is_likely_fake : Bool
  risk_level : String

/-- FraudDetectionEngine.calculate_fraud_score. -/
def calculate_fraud_score (lead_data : PDict) : Except String FraudResult := do
  let email_fraud ← check_email_fraud (dictGet lead_data "Email")
  let phone_fraud ← check_phone_fraud (dictGet lead_data "Phone")
  let name_fraud ← check_name_fraud (dictGet lead_data "FirstName")
      (dictGet lead_data "LastName")
  let company_fraud ← check_company_fraud (dictGet lead_data "Company")
  let consistency_fraud ← check_pattern_consistency lead_data
  let fraud_score : ℚ :=
    email_fraud.score * 0.3 + phone_fraud.score * 0.25 + name_fraud.score * 0.2
      + company_fraud.score * 0.15 + consistency_fraud.score * 0.1
  pure {
    fraud_score := min fraud_score 1,
    fraud_indicators := email_fraud.indicators ++ phone_fraud.indicators
      ++ name_fraud.indicators ++ company_fraud.indicators
      ++ consistency_fraud.indicators,
    is_likely_fake := decide (fraud_score ≥ 0.7),
    risk_level := determine_risk_level fraud_score }

end FraudDetection

/-! ## Lead validation rules engine — src/src/validation/rules.py,
field lists from src/config/settings.py -/

namespace LeadRules

/-- Classification returned by phonenumbers.number_type. -/
inductive PhoneNumberType where
  | mobile
  | fixed_line
  | other
deriving DecidableEq

/-- What the code reads off a successfully parsed phonenumbers object. -/
structure PhoneNumberInfo where
  is_valid_number : Bool
  e164 : String
  national : String
  number_type : PhoneNumberType

/-- The external libraries rules.py calls: email_validator.validate_email
(ok = normalized address, error = EmailNotValidError message),
phonenumbers.parse (error = NumberParseException message), and
fuzzywuzzy fuzz.ratio (an integer similarity in 0..100).  They are
deterministic functions supplied as parameters of the embedding. -/
structure Libs where
  validate_email_lib : String → Except String String
  phonenumbers_parse : String → Except String PhoneNumberInfo
  fuzz_ratio : String → String → Nat

/-- REQUIRED_FIELDS from config/settings.py. -/
def REQUIRED_FIELDS : List String :=
  ["FirstName", "LastName", "Email", "Phone", "Company", "Status"]

/-- IMPORTANT_FIELDS from config/settings.py. -/
def IMPORTANT_FIELDS : List String :=
  ["Title", "Industry", "LeadSource", "City", "State", "Country"]

/-- Result dict of _validate_email (constant key field omitted; keys that
the code sets only conditionally are Option fields). -/
structure EmailCheck where
  value : Option PVal
  is_valid : Bool
  score : ℚ
  issues : List String
  normalized_value : Option String := none

/-- Result dict of _validate_phone. -/
structure PhoneCheck where
  value : Option PVal
  is_valid : Bool
  score : ℚ
  issues : List String
  normalized_value : Option String := none
  formatted_national : Option String := none
  is_mobile : Option Bool := none
  is_landline : Option Bool := none

/-- Result dict of _validate_name. -/
structure NameCheck where
  first_name : Option PVal
  last_name : Option PVal
  is_valid : Bool
  score : ℚ
  issues : List String

/-- Result dict of _validate_company. -/
structure CompanyCheck where
  value : Option PVal
  is_valid : Bool
  score : ℚ
  issues : List String

/-- Result dict of _validate_completeness. -/
structure CompletenessCheck where
  score : ℚ
  required_fields_filled : Nat
  important_fields_filled : Nat
  total_fields_filled : Nat
  issues : List String

/-- Result dict of _validate_data_quality. -/
structure DataQualityCheck where
  score : ℚ
  issues : List String

/-- Number of occurrences of a character in a string (str.count). -/
def countChar (c : Char) (s : String) : Nat := (s.toList.filter (· = c)).length

/-- s.split at-sign, index 1: the text between the first and second
at-sign (to the end if there is only one); none when there is no at-sign
(indexing [1] would raise IndexError). -/
def splitAtIdx1 (cs : List Char) : Option (List Char) :=
  (afterFirstL ['@'] cs).map (·.takeWhile (· ≠ '@'))

/-- common_domains from _validate_email. -/
def common_domains : List String :=
  ["gmail.com", "yahoo.com", "hotmail.com", "outlook.com"]

/-- LeadValidationRules._check_domain_typos: first common domain whose
fuzz.ratio similarity is in the potential-typo range 60..89. -/
def check_domain_typos (libs : Libs) (domain : String) : Option String :=
  common_domains.find? (fun cd =>
    60 ≤ libs.fuzz_ratio domain cd && libs.fuzz_ratio domain cd < 90)

/-- LeadValidationRules._validate_email.  After a successful library
validation the code indexes email.split at-sign [1]; if the library
accepted a string without an at-sign this raises IndexError (EmailNotValidError
is the only caught exception). -/
def validate_email_check (libs : Libs) (email : Option PVal) :
    Except String EmailCheck :=
  if !optTruthy email then
    .ok { value := email, is_valid := false, score := 0,
          issues := ["Email is required"] }
  else
    match email with
    | some (.pstr e) =>
      match libs.validate_email_lib e with
      | .ok norm =>
        let score1 : ℚ := 1
        let multiAt := countChar '@' e ≠ 1
        let score2 : ℚ := if multiAt then score1 * 0.5 else score1
        let iss2 : List String := if multiAt then ["Multiple @ symbols"] else []
        match splitAtIdx1 e.toList with
        | some dom =>
          let domain := lowerStr (String.mk dom)
          match check_domain_typos libs domain with
          | some sugg =>
            .ok { value := email, is_valid := true, score := score2 * 0.8,
                  issues := iss2 ++ ["Possible domain typo: " ++ sugg],
                  normalized_value := some norm }
          | none =>
            .ok { value := email, is_valid := true, score := score2,
                  issues := iss2, normalized_value := some norm }
        | none => .error "IndexError: list index out of range"
      | .error msg =>
        .ok { value := email, is_valid := false, score := 0,
              issues := ["Invalid email format: " ++ msg] }
    | _ => .error "TypeError: validate_email expects a string"

/-- LeadValidationRules._validate_phone. -/
def validate_phone_check (libs : Libs) (phone : Option PVal) :
    Except String PhoneCheck :=
  if !optTruthy phone then
    .ok { value := phone, is_valid := false, score := 0,
          issues := ["Phone number is required"] }
  else
    match phone with
    | some (.pstr p) =>
      match libs.phonenumbers_parse p with
      | .ok parsed =>
        if parsed.is_valid_number then
          .ok { value := phone, is_valid := true, score := 1, issues := [],
                normalized_value := some parsed.e164,
                formatted_national := some parsed.national,
                is_mobile :=
                  if parsed.number_type = .mobile then some true else none,
                is_landline :=
                  if parsed.number_type = .fixed_line then some true else none }
        else
          .ok { value := phone, is_valid := false, score := 0,
                issues := ["Invalid phone number"] }
      | .error msg =>
        .ok { value := phone, is_valid := false, score := 0,
              issues := ["Phone parsing error: " ++ msg] }
    | _ => .error "TypeError: phonenumbers.parse expects a string"

/-- suspicious_patterns of _validate_name. -/
def suspicious_name_patterns : List String :=
  ["test", "unknown", "n/a", "null", "admin"]

/-- One name component of _validate_name: an optional score contribution
and the issues produced.  Raises on a truthy non-string (len of strip). -/
def nameComponent (v : Option PVal) (required_msg short_msg : String) :
    Except String (Option ℚ × List String) :=
  if !optTruthy v then .ok (none, [required_msg])
  else
    match v with
    | some (.pstr s) =>
      if (strip s).length < 1 then .ok (none, [required_msg])
      else if (strip s).length ≥ 2 then .ok (some 0.5, [])
      else .ok (some 0.25, [short_msg])
    | _ => .error "AttributeError: object has no attribute strip"

/-- LeadValidationRules._validate_name. -/
def validate_name_check (first_name last_name : Option PVal) :
    Except String NameCheck := do
  let fPart ← nameComponent first_name "First name is required" "First name too short"
  let lPart ← nameComponent last_name "Last name is required" "Last name too short"
  let suspicious :=
    match first_name, last_name with
    | some (.pstr f), some (.pstr l) =>
      f ≠ "" && l ≠ "" &&
        suspicious_name_patterns.any
          (fun p => isInfixL p.toList (lowerStr (f ++ " " ++ l)).toList)
    | _, _ => false
  let components : List ℚ :=
    (fPart.1.toList ++ lPart.1.toList).map (fun s => if suspicious then s * 0.5 else s)
  let score := components.sum
  pure { first_name := first_name, last_name := last_name,
         is_valid := decide (score ≥ 0.8), score := score,
         issues := fPart.2 ++ lPart.2
           ++ (if suspicious then ["Suspicious name pattern detected"] else []) }

/-- suspicious_patterns of _validate_company. -/
def suspicious_company_patterns : List String :=
  ["test", "unknown", "n/a", "null", "none", "company"]

/-- LeadValidationRules._validate_company. -/
def validate_company_check (company : Option PVal) :
    Except String CompanyCheck :=
  if !optTruthy company then
    .ok { value := company, is_valid := false, score := 0,
          issues := ["Company name is required"] }
  else
    match company with
    | some (.pstr c) =>
      let cc := strip c
      let short := cc.length < 2
      let score1 : ℚ := if short then 0.2 else 0.8
      let valid1 := !short
      let iss1 : List String := if short then ["Company name too short"] else []
      if suspicious_company_patterns.contains (lowerStr cc) then
        .ok { value := company, is_valid := false, score := score1 * 0.3,
              issues := iss1 ++ ["Suspicious company name"] }
      else
        .ok { value := company, is_valid := valid1, score := score1,
              issues := iss1 }
    | _ => .error "AttributeError: object has no attribute strip"

/-- The filled-field test of _validate_completeness:
value truthy and str(value).strip() truthy. -/
def pyFilled : Option PVal → Bool
  | some (.pstr s) => s ≠ "" && strip s ≠ ""
  | some (.pint n) => n != 0
  | some (.pfloat q) => decide (q ≠ 0)
  | some (.pbool b) => b
  | some (.plist xs) => !xs.isEmpty
  | some (.pdict fs) => !fs.isEmpty
  | some .pnone => false
  | none => false

/-- LeadValidationRules._validate_completeness. -/
def validate_completeness (lead_data : PDict) : CompletenessCheck :=
  let reqFilled := (REQUIRED_FIELDS.filter (fun f => pyFilled (dictGet lead_data f))).length
  let issues := (REQUIRED_FIELDS.filter (fun f => !pyFilled (dictGet lead_data f))).map
    (fun f => "Missing required field: " ++ f)
  let required_score : ℚ := (reqFilled : ℚ) / (REQUIRED_FIELDS.length : ℚ)
  let impFilled := (IMPORTANT_FIELDS.filter (fun f => pyFilled (dictGet lead_data f))).length
  let important_score : ℚ :=
    if IMPORTANT_FIELDS.isEmpty then 0
    else (impFilled : ℚ) / (IMPORTANT_FIELDS.length : ℚ)
  let allFields := (REQUIRED_FIELDS ++ IMPORTANT_FIELDS).eraseDups
  let totalFilled := (allFields.filter (fun f => pyFilled (dictGet lead_data f))).length
  { score := required_score * 0.7 + important_score * 0.3,
    required_fields_filled := reqFilled,
    important_fields_filled := impFilled,
    total_fields_filled := totalFilled,
    issues := issues }

/-- placeholder_patterns of _validate_data_quality. -/
def placeholder_patterns : List String :=
  ["test", "unknown", "n/a", "null", "none", "tbd", "pending"]

/-- The items of the record whose value is a truthy string — the only
ones either loop of _validate_data_quality inspects. -/
def strItems (lead_data : PDict) : List (String × String) :=
  lead_data.filterMap (fun kv =>
    match kv.2 with
    | .pstr s => if s ≠ "" then some (kv.1, s) else none
    | _ => none)

/-- Python str.isupper: at least one cased character and every cased
character uppercase (ASCII model: cased = alphabetic). -/
def pyIsUpper (s : String) : Bool :=
  s.toList.any (·.isAlpha) && s.toList.all (fun c => !c.isAlpha || c.isUpper)

/-- LeadValidationRules._validate_data_quality. -/
def validate_data_quality (lead_data : PDict) : DataQualityCheck :=
  let items := strItems lead_data
  let total_checks := items.length
  let ph := items.filter (fun it => placeholder_patterns.contains (strip (lowerStr it.2)))
  let issues1 := ph.map (fun it => "Placeholder value in " ++ it.1 ++ ": " ++ it.2)
  let fmt := items.foldl
    (fun (acc : Nat × List String) it =>
      let acc :=
        if pyIsUpper it.2 && it.2.length > 10 then
          (acc.1 + 1, acc.2 ++ ["All caps formatting in " ++ it.1])
        else acc
      if isInfixL "  ".toList it.2.toList then
        (acc.1 + 1, acc.2 ++ ["Multiple spaces in " ++ it.1])
      else acc)
    (0, [])
  let quality_issues := ph.length + fmt.1
  let score : ℚ :=
    if total_checks > 0 then
      max 0 (1 - (quality_issues : ℚ) / (total_checks : ℚ))
    else 1
  { score := score, issues := issues1 ++ fmt.2 }

/-- LeadValidationRules._calculate_data_quality_score, with all five
weighted dimensions present (as validate_lead always provides them), so
total weight is 0.30+0.30+0.15+0.10+0.15. -/
def calculate_data_quality_score (email phone name company completeness : ℚ) : ℚ :=
  (email * 0.30 + phone * 0.30 + name * 0.15 + company * 0.10
    + completeness * 0.15) / (0.30 + 0.30 + 0.15 + 0.10 + 0.15)

/-- LeadValidationRules._calculate_combined_score. -/
def calculate_combined_score (data_quality_score fraud_score : ℚ) : ℚ :=
  data_quality_score * 0.7 + (1 - fraud_score) * 0.3

/-- LeadValidationRules._determine_validation_status. -/
def determine_validation_status (overall_score : ℚ) : String :=
  if overall_score ≥ 0.9 then "Excellent"
  else if overall_score ≥ 0.8 then "Good"
  else if overall_score ≥ 0.6 then "Fair"
  else if overall_score ≥ 0.4 then "Poor"
  else "Invalid"

/-- The validation_details dict of validate_lead. -/
structure ValidationDetails where
  email : EmailCheck
  phone : PhoneCheck
  name : NameCheck
  company : CompanyCheck
  completeness : CompletenessCheck
  data_quality : DataQualityCheck
  fraud : FraudDetection.FraudResult

/-- The dict returned by LeadValidationRules.validate_lead.  The
validation_timestamp is pd.Timestamp.now(), i.e. the wall clock at call
time, modelled as an explicit argument. -/
structure ValidationResult where
  lead_id : PVal
  validation_timestamp : Nat
  overall_score : ℚ
  data_quality_score : ℚ
  fraud_score : ℚ
  validation_details : ValidationDetails
  validation_status : String

/-- LeadValidationRules.validate_lead. -/
def validate_lead (libs : Libs) (now : Nat) (lead_data : PDict) :
    Except String ValidationResult := do
  let email ← validate_email_check libs (dictGet lead_data "Email")
  let phone ← validate_phone_check libs (dictGet lead_data "Phone")
  let name ← validate_name_check (dictGet lead_data "FirstName")
      (dictGet lead_data "LastName")
  let company ← validate_company_check (dictGet lead_data "Company")
  let completeness := validate_completeness lead_data
  let data_quality := validate_data_quality lead_data
  let dq_score := calculate_data_quality_score email.score phone.score
      name.score company.score completeness.score
  let fraud ← FraudDetection.calculate_fraud_score lead_data
  let overall := calculate_combined_score dq_score fraud.fraud_score
  pure { lead_id := dictGetD lead_data "Id" (.pstr "Unknown"),
         validation_timestamp := now,
         overall_score := overall,
         data_quality_score := dq_score,
         fraud_score := fraud.fraud_score,
         validation_details :=
           { email := email, phone := phone, name := name, company := company,
             completeness := completeness, data_quality := data_quality,
             fraud := fraud },
         validation_status := determine_validation_status overall }

/-- LeadValidationRules.validate_batch: a plain loop over the rows with no
per-record exception handling — the first record that raises aborts the
whole batch. -/
def validate_batch (libs : Libs) (now : Nat) (leads : List PDict) :
    Except String (List ValidationResult) :=
  leads.mapM (validate_lead libs now)

end LeadRules

/-! ## Description parser — src/src/utils/validation_parser.py.
The json.loads decoder is an external collaborator and is a parameter
(`json_loads`), returning the decoded Python value or the
JSONDecodeError message. -/

namespace Parser

/-- Case-insensitive literal match at the head of a character list
(re.IGNORECASE on a literal). -/
def ciIsPrefixOfL (pat cs : List Char) : Bool :=
  (pat.map Char.toLower).isPrefixOf (cs.map Char.toLower)

/-- re.search for a pattern LABEL-literal followed by a rest-pattern:
leftmost position where the case-insensitive label matches and the rest
matcher succeeds on the remainder; failure at one position resumes the
scan at the next. -/
def searchField (label : List Char) (rest : List Char → Option (List Char)) :
    List Char → Option (List Char)
  | [] => none
  | c :: cs =>
    if ciIsPrefixOfL label (c :: cs) then
      match rest ((c :: cs).drop label.length) with
      | some cap => some cap
      | none => searchField label rest cs
    else searchField label rest cs

/-- Rest pattern backslash-s* followed by a captured (backslash-d+):
greedy whitespace, then at least one digit. -/
def rmDigits (cs : List Char) : Option (List Char) :=
  let rest := cs.dropWhile isPyWs
  let ds := rest.takeWhile (·.isDigit)
  if ds.isEmpty then none else some ds

/-- Like `rmDigits` but the maximal digit run must be followed by a
percent sign (the Data Quality pattern). -/
def rmDigitsPercent (cs : List Char) : Option (List Char) :=
  let rest := cs.dropWhile isPyWs
  let ds := rest.takeWhile (·.isDigit)
  if ds.isEmpty then none
  else
    match rest.drop ds.length with
    | '%' :: _ => some ds
    | _ => none

/-- Regex word character (ASCII model of backslash-w). -/
def isWordChar (c : Char) : Bool := c.isAlphanum || c = '_'

/-- Rest pattern backslash-s* followed by a captured (backslash-w+). -/
def rmWord (cs : List Char) : Option (List Char) :=
  let rest := cs.dropWhile isPyWs
  let ws := rest.takeWhile isWordChar
  if ws.isEmpty then none else some ws

/-- Rest pattern backslash-s* followed by a captured (true|false),
case-insensitive; the capture keeps the original casing. -/
def rmTrueFalse (cs : List Char) : Option (List Char) :=
  let rest := cs.dropWhile isPyWs
  if ciIsPrefixOfL "true".toList rest then some (rest.take 4)
  else if ciIsPrefixOfL "false".toList rest then some (rest.take 5)
  else none

/-- Rest pattern backslash-s* followed by a captured (.+) (no DOTALL, so
the dot stops at a newline).  The star is greedy but backtracks: if only
whitespace remains, the engine backs up so that the dot-plus can consume
the last whitespace character that is not a newline (the subsequent
strip turns such a capture into the empty string); if every remaining
character is a newline or the remainder is empty, the position fails. -/
def rmRestOfLine (cs : List Char) : Option (List Char) :=
  let rest := cs.dropWhile isPyWs
  if rest.isEmpty then
    match (cs.filter (· ≠ '\n')).getLast? with
    | some c => some [c]
    | none => none
  else some (rest.takeWhile (· ≠ '\n'))

/-- Numeric parse of a digit string (what int() does to the captures the
digit patterns produce). -/
def digitsToNat (cs : List Char) : Option Nat :=
  if !cs.isEmpty && cs.all (·.isDigit) then
    some (cs.foldl (fun acc c => acc * 10 + (c.toNat - 48)) 0)
  else none

/-- Coercion for the numeric fields of the lead-validation section:
strip, then int(value) with fallback to the raw string on parse
failure. -/
def coerceInt (cap : List Char) : PVal :=
  let v := stripL cap
  match digitsToNat v with
  | some n => .pint n
  | none => .pstr (String.mk v)

/-- Coercion for the email-summary section: int(match.group(1)) without
an intervening strip, falling back to the raw group. -/
def coerceIntRaw (cap : List Char) : PVal :=
  match digitsToNat cap with
  | some n => .pint n
  | none => .pstr (String.mk cap)

/-- Plain string coercion: the stripped capture. -/
def coerceStr (cap : List Char) : PVal := .pstr (String.mk (stripL cap))

/-- Boolean coercion: value.lower() equals true. -/
def coerceBool (cap : List Char) : PVal :=
  .pbool (lowerStr (String.mk (stripL cap)) = "true")

/-- String coercion with the null rule: a capture whose lowercase strip
is the token null becomes an explicit None. -/
def coerceStrOrNull (cap : List Char) : PVal :=
  let v := String.mk (stripL cap)
  if lowerStr v = "null" then .pnone else .pstr v

/-- A field specification: the matcher applied to the section content and
the value coercion. -/
abbrev FieldSpec := (List Char → Option (List Char)) × (List Char → PVal)

/-- Build one field row: search for the label-anchored pattern inside the
section content. -/
def fieldRow (name label : String) (rm : List Char → Option (List Char))
    (co : List Char → PVal) : String × FieldSpec :=
  (name, (fun content => searchField label.toList rm content, co))

/-- Generic dict builder: one optional entry per table row, in table
order (the shape shared by the section extractors and the payload
flattener). -/
def tableEntries {β : Type} (rows : List (String × β)) (h : β → Option PVal) :
    PDict :=
  rows.filterMap (fun r => (h r.2).map (fun v => (r.1, v)))

/-- The section regex HEADER(.*?)(?=next-header-or-end) with DOTALL: the
text after the first occurrence of the header, up to the first following
"=== " or the end of the text, stripped (the dollar alternative can also
stop just before a trailing newline, a difference the strip erases). -/
def sectionContent (header : String) (description : String) : Option String :=
  (afterFirstL header.toList description.toList).map
    (fun rest => String.mk (stripL (takeUntilL "=== ".toList rest)))

/-- Shared shape of the four _extract_*_section methods: locate the
section body, then apply each field pattern to it, one optional entry
per field in table order. -/
def extractSection (header : String) (rows : List (String × FieldSpec))
    (description : String) : PDict :=
  match sectionContent header description with
  | some content => tableEntries rows (fun mc => (mc.1 content.toList).map mc.2)
  | none => []

/-- Field table of _extract_lead_validation_section. -/
def lead_validation_fields : List (String × FieldSpec) :=
  [fieldRow "lead_score" "Lead Score:" rmDigits coerceInt,
   fieldRow "quality_score" "Quality Score:" rmDigits coerceInt,
   fieldRow "data_quality" "Data Quality:" rmDigitsPercent coerceInt,
   fieldRow "fraud_score" "Fraud Score:" rmDigits coerceInt,
   fieldRow "recommendation" "Recommendation:" rmWord coerceStr,
   fieldRow "quality_level" "Quality Level:" rmWord coerceStr,
   fieldRow "fraud_risk" "Fraud Risk:" rmWord coerceStr,
   fieldRow "market_segment" "Market Segment:" rmRestOfLine coerceStr]

/-- ValidationDataParser._extract_lead_validation_section. -/
def extract_lead_validation_section (description : String) : PDict :=
  extractSection "=== LEAD VALIDATION RESULTS ===" lead_validation_fields description

/-- Field table of _extract_phone_validation_section. -/
def phone_validation_fields : List (String × FieldSpec) :=
  [fieldRow "phone_valid" "Phone Valid:" rmTrueFalse coerceBool,
   fieldRow "phone_carrier" "Carrier:" rmRestOfLine coerceStrOrNull,
   fieldRow "phone_type" "Type:" rmRestOfLine coerceStrOrNull,
   fieldRow "phone_national_format" "National Format:" rmRestOfLine coerceStrOrNull]

/-- ValidationDataParser._extract_phone_validation_section. -/
def extract_phone_validation_section (description : String) : PDict :=
  extractSection "=== PHONE VALIDATION ===" phone_validation_fields description

/-- Field table of _extract_email_validation_section. -/
def email_validation_fields : List (String × FieldSpec) :=
  [fieldRow "email_valid" "Email Valid:" rmTrueFalse coerceBool,
   fieldRow "email_sendable" "Email Sendable:" rmTrueFalse coerceBool,
   fieldRow "bounce_likely" "Bounce Likely:" rmTrueFalse coerceBool,
   fieldRow "gibberish_score" "Gibberish Score:" rmRestOfLine coerceStrOrNull]

/-- ValidationDataParser._extract_email_validation_section. -/
def extract_email_validation_section (description : String) : PDict :=
  extractSection "=== EMAIL VALIDATION ===" email_validation_fields description

/-- Field table of _extract_email_summary_section. -/
def email_summary_fields : List (String × FieldSpec) :=
  [fieldRow "total_emails" "Total Emails:" rmDigits coerceIntRaw,
   fieldRow "valid_emails" "Valid Emails:" rmDigits coerceIntRaw,
   fieldRow "sendable_emails" "Sendable Emails:" rmDigits coerceIntRaw,
   fieldRow "email_quality_score" "Email Quality Score:" rmDigits coerceIntRaw]

/-- ValidationDataParser._extract_email_summary_section. -/
def extract_email_summary_section (description : String) : PDict :=
  extractSection "=== EMAIL SUMMARY ===" email_summary_fields description

/-- Index of the last character satisfying p (str.rfind). -/
def rfindIdx (p : Char → Bool) (cs : List Char) : Option Nat :=
  match cs.reverse.findIdx? p with
  | some i => some (cs.length - 1 - i)
  | none => none

/-- ValidationDataParser._clean_json_content: strip, then cut to the span
from the first opening brace to the last closing brace when both exist
(an inverted pair yields the empty string, as the Python slice does). -/
def clean_json_content (content : String) : String :=
  let cs := stripL content.toList
  match cs.findIdx? (· = '\x7b'), rfindIdx (· = '\x7d') cs with
  | some s, some e => String.mk ((cs.drop s).take (e + 1 - s))
  | _, _ => String.mk cs

/-- ValidationDataParser._extract_raw_api_response: none when the section
is absent; on decode failure a marker dict carrying the decode error
message and the cleaned substring that failed to parse (JSONDecodeError
is caught; nothing is raised to the caller). -/
def extract_raw_api_response (json_loads : String → Except String PVal)
    (description : String) : Option PVal :=
  match sectionContent "=== RAW API RESPONSE ===" description with
  | some content =>
    let cleaned := clean_json_content content
    match json_loads cleaned with
    | .ok v => some v
    | .error e =>
      some (.pdict [("json_parse_error", .pstr e), ("raw_content", .pstr cleaned)])
  | none => none

/-- field_mappings of _flatten_api_response (destination, source). -/
def field_mappings : List (String × String) :=
  [("api_lead_score", "leadScore"),
   ("api_quality_score", "qualityScore"),
   ("api_fraud_score", "fraudScore"),
   ("api_data_quality_score", "dataQualityScore"),
   ("api_recommendation", "recommendation"),
   ("api_quality_level", "qualityLevel"),
   ("api_fraud_risk_level", "fraudRiskLevel"),
   ("api_market_segment", "marketSegment"),
   ("api_phone_valid", "phoneValid"),
   ("api_phone_carrier", "phoneCarrier"),
   ("api_phone_location", "phoneLocation"),
   ("api_email_valid", "emailValid"),
   ("api_email_sendable", "emailSendable"),
   ("api_bounce_likely", "isBounceLikely"),
   ("api_gibberish_email", "isGibberishEmail"),
   ("api_fake_phone", "isFakePhone"),
   ("api_fake_lead", "isFakeLead"),
   ("api_disposable_email", "isDisposable"),
   ("api_business_strength_score", "businessStrengthScore"),
   ("api_first_name", "first_name"),
   ("api_last_name", "last_name"),
   ("api_company", "company"),
   ("api_email", "email"),
   ("api_phone", "phone"),
   ("api_state", "state"),
   ("api_postal_code", "postalCode")]

/-- The four leaves copied out of the emailSummary substructure
(destination, source); absent leaves are fetched with .get and so yield
an explicit None entry. -/
def email_summary_leaves : List (String × String) :=
  [("api_total_emails", "totalEmails"),
   ("api_valid_emails", "validEmails"),
   ("api_sendable_emails", "sendableEmails"),
   ("api_email_summary_quality_score", "qualityScore")]

/-- The three array-valued fields joined to comma-separated text
(destination, source), in source order. -/
def array_fields : List (String × String) :=
  [("api_quality_factors", "qualityFactors"),
   ("api_fraud_factors", "fraudFactors"),
   ("api_summary_notes", "summaryNotes")]

/-- Python ", ".join(x): joins a list when every item is a string, joins
the characters of a string, joins the keys of a dict; raises TypeError
otherwise. -/
def pyJoinComma : PVal → Except String String
  | .plist xs => do
    let strs ← xs.mapM (fun x =>
      match x with
      | .pstr s => Except.ok s
      | _ => Except.error "TypeError: sequence item: expected str instance")
    pure (String.intercalate ", " strs)
  | .pstr s => .ok (String.intercalate ", " (s.toList.map (fun c => String.mk [c])))
  | .pdict fs => .ok (String.intercalate ", " (fs.map (·.1)))
  | _ => .error "TypeError: can only join an iterable"

/-- Python membership of a string key in a list value. -/
def memStrOfList (xs : List PVal) (k : String) : Bool :=
  xs.any (fun x => match x with | .pstr s => s = k | _ => false)

/-- The dict update of _flatten_api_response for the emailSummary
substructure: once the key is present all four leaves are added, an
absent leaf read with .get contributing an explicit None; a present
non-dict value raises at the .get call. -/
def emailSummaryEntries (fields : PDict) : Except String PDict :=
  match List.lookup "emailSummary" fields with
  | some (.pdict es) =>
    .ok (email_summary_leaves.map (fun le => (le.1, (List.lookup le.2 es).getD .pnone)))
  | some _ => .error "AttributeError: object has no attribute get"
  | none => .ok []

/-- One of the three array-field blocks of _flatten_api_response: when
the source key is present its value is comma-joined and stored under the
destination key. -/
def arrayEntry (fields : PDict) (dst src : String) : Except String PDict :=
  match List.lookup src fields with
  | some v => do
    let j ← pyJoinComma v
    pure [(dst, PVal.pstr j)]
  | none => pure []

/-- ValidationDataParser._flatten_api_response.  On a decoded dict: one
prefixed copy per mapped source key present, then the emailSummary
leaves (always all four once emailSummary is present, defaulting to
None), then the three joined arrays, each in its own if block as in the
source.  On a decoded list or string the key membership tests can
succeed and string indexing then raises TypeError; with no matching key
the flattened result is empty.  On any other truthy value, membership
testing itself raises TypeError. -/
def flatten_api_response (api_response : PVal) : Except String PDict :=
  match api_response with
  | .pdict fields => do
    let base := tableEntries field_mappings (fun af => List.lookup af fields)
    let sm ← emailSummaryEntries fields
    let qf ← arrayEntry fields "api_quality_factors" "qualityFactors"
    let ff ← arrayEntry fields "api_fraud_factors" "fraudFactors"
    let sn ← arrayEntry fields "api_summary_notes" "summaryNotes"
    pure (base ++ sm ++ qf ++ ff ++ sn)
  | .plist xs =>
    if field_mappings.any (fun m => memStrOfList xs m.2)
        || memStrOfList xs "emailSummary"
        || array_fields.any (fun m => memStrOfList xs m.2) then
      .error "TypeError: list indices must be integers"
    else .ok []
  | .pstr s =>
    if field_mappings.any (fun m => isInfixL m.2.toList s.toList)
        || isInfixL "emailSummary".toList s.toList
        || array_fields.any (fun m => isInfixL m.2.toList s.toList) then
      .error "TypeError: string indices must be integers"
    else .ok []
  | _ => .error "TypeError: argument is not iterable"

/-- The dict parse_description initialises before extraction. -/
def initResult (description : String) : PDict :=
  [("raw_description", .pstr description),
   ("validation_sections", .pdict []),
   ("raw_api_response", .pdict [])]

/-- The result dict of parse_description after the four section updates
(result = init, then update with each extracted section in turn). -/
def sectionsMerged (description : String) : PDict :=
  pyUpdate (pyUpdate (pyUpdate (pyUpdate (initResult description)
    (extract_lead_validation_section description))
    (extract_phone_validation_section description))
    (extract_email_validation_section description))
    (extract_email_summary_section description)

/-- The body of the try block of ValidationDataParser.parse_description. -/
def parseDescriptionBody (json_loads : String → Except String PVal)
    (description : String) : Except String PDict := do
  let r4 := sectionsMerged description
  match extract_raw_api_response json_loads description with
  | some raw_json =>
    if pvalTruthy raw_json then do
      let r5 := pyUpdate r4 [("raw_api_response", raw_json)]
      let fl ← flatten_api_response raw_json
      pure (pyUpdate r5 fl)
    else pure r4
  | none => pure r4

/-- ValidationDataParser.parse_description: an empty/absent description
returns the empty dict at once; any exception inside the body is caught
and turned into a parse_error marker that keeps the raw description. -/
def parse_description (json_loads : String → Except String PVal)
    (description : PVal) : PDict :=
  if ¬ pvalTruthy description then []
  else
    match description with
    | .pstr d =>
      match parseDescriptionBody json_loads d with
      | .ok r => r
      | .error e => [("parse_error", .pstr e), ("raw_description", .pstr d)]
    | _ =>
      [("parse_error", .pstr "TypeError: expected string or bytes-like object"),
       ("raw_description", description)]

/-- The Task metadata parse_batch merges into every parsed record. -/
def taskMetadata (row : PDict) : PDict :=
  [("task_id", dictGetD row "Id" .pnone),
   ("who_id", dictGetD row "WhoId" .pnone),
   ("what_id", dictGetD row "WhatId" .pnone),
   ("subject", dictGetD row "Subject" .pnone),
   ("lead_source", dictGetD row "LeadSource" .pnone),
   ("lead_company", dictGetD row "Company" .pnone),
   ("lead_email", dictGetD row "Email" .pnone),
   ("created_date", dictGetD row "CreatedDate" .pnone),
   ("last_modified_date", dictGetD row "LastModifiedDate" .pnone)]

/-- ValidationDataParser.parse_batch: one output record per input row
(parse_description never raises, so neither does the loop). -/
def parse_batch (json_loads : String → Except String PVal)
    (tasks : List PDict) : List PDict :=
  tasks.map (fun row =>
    pyUpdate (parse_description json_loads (dictGetD row "Description" (.pstr "")))
      (taskMetadata row))

/-- The parsing-error counter of LeadValidationETL.parse_validation_data
(src/lead_validation_etl.py): a parsed record counts as a parsing error
exactly when its parse_error field is present. -/
def count_parsing_errors (parsed : List PDict) : Nat :=
  (parsed.filter (fun r => (List.lookup "parse_error" r).isSome)).length

end Parser

/-! ## Concrete instances of the external collaborators, used to evaluate
the embedding on closed inputs. -/

/-- A concrete instantiation of the external libraries: the validators
reject every input, the similarity is constantly zero. -/
def stubLibs : LeadRules.Libs :=
  { validate_email_lib := fun _ => .error "The email address is not valid",
    phonenumbers_parse := fun _ =>
      .error "(1) The string supplied did not seem to be a phone number.",
    fuzz_ratio := fun _ _ => 0 }

/-- A concrete json.loads that fails on every input, as it does on any
non-JSON payload. -/
def stubLoads : String → Except String PVal :=
  fun _ => .error "Expecting value: line 1 column 1 (char 0)"

/-! ## Generic lemmas about the dict model -/

lemma except_bind_ok {α β : Type} (a : α) (f : α → Except String β) :
    (Except.ok a >>= f : Except String β) = f a := rfl

lemma except_bind_error {α β : Type} (e : String) (f : α → Except String β) :
    (Except.error e >>= f : Except String β) = .error e := rfl

lemma lookup_cons_self {α : Type} (k : String) (v : α) (l : List (String × α)) :
    List.lookup k ((k, v) :: l) = some v := by
  simp [List.lookup]

lemma lookup_cons_ne {α : Type} (k k₀ : String) (v : α) (l : List (String × α))
    (h : k ≠ k₀) : List.lookup k ((k₀, v) :: l) = List.lookup k l := by
  simp [List.lookup, beq_false_of_ne h]

lemma lookup_eq_none_iff {α : Type} (l : List (String × α)) (k : String) :
    List.lookup k l = none ↔ k ∉ l.map Prod.fst := by
  induction l with
  | nil => simp [List.lookup]
  | cons kv l ih =>
    obtain ⟨k₀, v₀⟩ := kv
    by_cases hk : k = k₀
    · subst hk
      rw [lookup_cons_self]
      simp
    · rw [lookup_cons_ne _ _ _ _ hk, ih]
      simp [hk]

lemma lookup_append {α : Type} (l₁ l₂ : List (String × α)) (k : String) :
    List.lookup k (l₁ ++ l₂) = (List.lookup k l₁).or (List.lookup k l₂) := by
  induction l₁ with
  | nil => simp [List.lookup]
  | cons kv l ih =>
    obtain ⟨k₀, v₀⟩ := kv
    by_cases hk : k = k₀
    · subst hk
      rw [List.cons_append, lookup_cons_self, lookup_cons_self]
      rfl
    · rw [List.cons_append, lookup_cons_ne _ _ _ _ hk, lookup_cons_ne _ _ _ _ hk, ih]

lemma lookup_map_replace (d : PDict) (k : String) (v : PVal) :
    List.lookup k (d.map (fun kv => if kv.1 = k then (kv.1, v) else kv))
      = (List.lookup k d).map (fun _ => v) := by
  induction d with
  | nil => simp [List.lookup]
  | cons kv d ih =>
    obtain ⟨k₀, v₀⟩ := kv
    by_cases hk : k = k₀
    · subst hk
      rw [List.map_cons, if_pos rfl, lookup_cons_self, lookup_cons_self]
      rfl
    · rw [List.map_cons, if_neg (by simpa using Ne.symm hk)]
      rw [lookup_cons_ne _ _ _ _ hk, lookup_cons_ne _ _ _ _ hk, ih]

lemma lookup_map_replace_ne (d : PDict) (k k₁ : String) (v : PVal) (h : k ≠ k₁) :
    List.lookup k (d.map (fun kv => if kv.1 = k₁ then (kv.1, v) else kv))
      = List.lookup k d := by
  induction d with
  | nil => simp [List.lookup]
  | cons kv d ih =>
    obtain ⟨k₀, v₀⟩ := kv
    by_cases hk₁ : k₀ = k₁
    · subst hk₁
      rw [List.map_cons, if_pos rfl]
      rw [lookup_cons_ne _ _ _ _ h, lookup_cons_ne _ _ _ _ h, ih]
    · rw [List.map_cons, if_neg (by simpa using hk₁)]
      by_cases hk : k = k₀
      · subst hk
        rw [lookup_cons_self, lookup_cons_self]
      · rw [lookup_cons_ne _ _ _ _ hk, lookup_cons_ne _ _ _ _ hk, ih]

lemma lookup_pyInsert_self (d : PDict) (k : String) (v : PVal) :
    List.lookup k (pyInsert d k v) = some v := by
  unfold pyInsert
  split
  · rename_i hs
    obtain ⟨w, hw⟩ := Option.isSome_iff_exists.mp hs
    rw [lookup_map_replace, hw]
    rfl
  · rename_i hs
    rw [lookup_append]
    have h0 : List.lookup k d = none := by
      cases h : List.lookup k d
      · rfl
      · rw [h] at hs; simp at hs
    rw [h0, lookup_cons_self]
    rfl

lemma lookup_pyInsert_ne (d : PDict) (k k₁ : String) (v : PVal) (h : k ≠ k₁) :
    List.lookup k (pyInsert d k₁ v) = List.lookup k d := by
  unfold pyInsert
  split
  · exact lookup_map_replace_ne d k k₁ v h
  · rw [lookup_append, lookup_cons_ne _ _ _ _ h]
    simp [List.lookup]

lemma pyUpdate_cons (d : PDict) (k : String) (v : PVal) (u : PDict) :
    pyUpdate d ((k, v) :: u) = pyUpdate (pyInsert d k v) u := rfl

lemma nodup_keys_cons {α : Type} {k₀ : String} {v₀ : α} {u : List (String × α)}
    (hu : (((k₀, v₀) :: u).map Prod.fst).Nodup) :
    k₀ ∉ u.map Prod.fst ∧ (u.map Prod.fst).Nodup := by
  rw [List.map_cons] at hu
  exact List.nodup_cons.mp hu

lemma lookup_pyUpdate (d u : PDict) (k : String)
    (hu : (u.map Prod.fst).Nodup) :
    List.lookup k (pyUpdate d u) = (List.lookup k u).or (List.lookup k d) := by
  induction u generalizing d with
  | nil => simp [pyUpdate, List.lookup]
  | cons kv u ih =>
    obtain ⟨k₀, v₀⟩ := kv
    obtain ⟨hmem, hu'⟩ := nodup_keys_cons hu
    rw [pyUpdate_cons, ih _ hu']
    by_cases hk : k = k₀
    · subst hk
      rw [(lookup_eq_none_iff u k).mpr hmem, lookup_pyInsert_self, lookup_cons_self]
      rfl
    · rw [lookup_pyInsert_ne _ _ _ _ hk, lookup_cons_ne _ _ _ _ hk]

lemma pyUpdate_eq_append (d u : PDict)
    (hdisj : ∀ k ∈ u.map Prod.fst, List.lookup k d = none)
    (hu : (u.map Prod.fst).Nodup) : pyUpdate d u = d ++ u := by
  induction u generalizing d with
  | nil => simp [pyUpdate]
  | cons kv u ih =>
    obtain ⟨k₀, v₀⟩ := kv
    obtain ⟨hmem, hu'⟩ := nodup_keys_cons hu
    have h0 : List.lookup k₀ d = none := hdisj k₀ (by simp)
    have hins : pyInsert d k₀ v₀ = d ++ [(k₀, v₀)] := by
      unfold pyInsert
      rw [h0]
      simp
    rw [pyUpdate_cons, hins, ih]
    · simp
    · intro k hk
      have hkne : k ≠ k₀ := by
        rintro rfl; exact hmem hk
      rw [lookup_append, lookup_cons_ne _ _ _ _ hkne]
      have : List.lookup k ([] : PDict) = none := rfl
      rw [this, hdisj k (by simp [hk])]
      rfl
    · exact hu'

lemma tableEntries_cons {β : Type} (k₀ : String) (b₀ : β)
    (rows : List (String × β)) (h : β → Option PVal) :
    Parser.tableEntries ((k₀, b₀) :: rows) h
      = (match h b₀ with
         | some v => (k₀, v) :: Parser.tableEntries rows h
         | none => Parser.tableEntries rows h) := by
  unfold Parser.tableEntries
  rw [List.filterMap_cons]
  cases h b₀ <;> rfl

lemma lookup_tableEntries_of_not_mem {β : Type} (rows : List (String × β))
    (h : β → Option PVal) (k : String) (hk : k ∉ rows.map Prod.fst) :
    List.lookup k (Parser.tableEntries rows h) = none := by
  induction rows with
  | nil => rfl
  | cons r rows ih =>
    obtain ⟨k₀, b₀⟩ := r
    have hkne : k ≠ k₀ := by
      rintro rfl; exact hk (by simp)
    have hk' : k ∉ rows.map Prod.fst := fun hc => hk (by simp [hc])
    rw [tableEntries_cons]
    cases h b₀
    · exact ih hk'
    · rw [lookup_cons_ne _ _ _ _ hkne]
      exact ih hk'

lemma lookup_tableEntries_of_mem {β : Type} (rows : List (String × β))
    (h : β → Option PVal) (k : String) (b : β)
    (hn : (rows.map Prod.fst).Nodup) (hm : (k, b) ∈ rows) :
    List.lookup k (Parser.tableEntries rows h) = h b := by
  induction rows with
  | nil => cases hm
  | cons r rows ih =>
    obtain ⟨k₀, b₀⟩ := r
    obtain ⟨hmem, hn'⟩ := nodup_keys_cons hn
    rcases List.mem_cons.mp hm with heq | hm'
    · injection heq with hk hb
      subst hk; subst hb
      rw [tableEntries_cons]
      cases hb0 : h b
      · rw [lookup_tableEntries_of_not_mem rows h k hmem]
      · rw [lookup_cons_self]
    · have hkne : k ≠ k₀ := by
        rintro rfl
        exact hmem (List.mem_map_of_mem Prod.fst hm')
      rw [tableEntries_cons]
      cases h b₀
      · exact ih hn' hm'
      · rw [lookup_cons_ne _ _ _ _ hkne]
        exact ih hn' hm'

lemma tableEntries_keys_sublist {β : Type} (rows : List (String × β))
    (h : β → Option PVal) :
    ((Parser.tableEntries rows h).map Prod.fst).Sublist (rows.map Prod.fst) := by
  induction rows with
  | nil => simp [Parser.tableEntries]
  | cons r rows ih =>
    obtain ⟨k₀, b₀⟩ := r
    rw [tableEntries_cons, List.map_cons]
    cases h b₀
    · exact ih.cons k₀
    · rw [List.map_cons]
      exact ih.cons₂ k₀


/-! ## Lemmas about the fraud sub-checks -/

/-- Membership of a rational in the unit interval. -/
def inUnit (q : ℚ) : Prop := 0 ≤ q ∧ q ≤ 1

lemma inUnit_max {a b : ℚ} (ha : inUnit a) (hb : inUnit b) : inUnit (max a b) :=
  ⟨le_max_of_le_left ha.1, max_le ha.2 hb.2⟩

lemma inUnit_ite (c : Prop) [Decidable c] {a b : ℚ} (ha : inUnit a)
    (hb : inUnit b) : inUnit (if c then a else b) := by
  split
  · exact ha
  · exact hb

namespace FraudDetection

/-- The record field is absent or bound to a string — the reads of
_check_pattern_consistency (get with a string default, then .lower())
succeed exactly in this case. -/
def strOrAbsent (ld : PDict) (k : String) : Bool :=
  match List.lookup k ld with
  | none => true
  | some (.pstr _) => true
  | some _ => false

/-- The record field is absent, None, or a string — what the optional
sub-checks (phone, company) tolerate. -/
def strNoneOrAbsent (ld : PDict) (k : String) : Bool :=
  match List.lookup k ld with
  | none => true
  | some .pnone => true
  | some (.pstr _) => true
  | some _ => false

lemma check_email_fraud_range (v : Option PVal) (r : SubResult)
    (h : check_email_fraud v = .ok r) : inUnit r.score := by
  have u0 : inUnit (0 : ℚ) := ⟨le_refl 0, by norm_num⟩
  rcases v with _ | (_ | b | n | q | s | xs | fs) <;>
    simp only [check_email_fraud] at h <;>
    first
      | (injection h with h; subst h; exact u0)
      | (split at h <;>
          first
            | (injection h with h; subst h; exact u0)
            | exact Except.noConfusion h
            | skip)
  -- remaining: a truthy string
  split at h
  · injection h with h; subst h
    exact ⟨by norm_num, by norm_num⟩
  · split at h <;> (injection h with h; subst h)
    · exact inUnit_max (inUnit_ite _ ⟨by norm_num, by norm_num⟩ u0)
        ⟨by norm_num, by norm_num⟩
    · exact inUnit_ite _ ⟨by norm_num, by norm_num⟩ u0

lemma check_phone_fraud_range (v : Option PVal) (r : SubResult)
    (h : check_phone_fraud v = .ok r) : inUnit r.score := by
  have u0 : inUnit (0 : ℚ) := ⟨le_refl 0, by norm_num⟩
  rcases v with _ | (_ | b | n | q | s | xs | fs) <;>
    simp only [check_phone_fraud] at h <;>
    first
      | (injection h with h; subst h; exact u0)
      | (split at h <;>
          first
            | (injection h with h; subst h; exact u0)
            | exact Except.noConfusion h
            | skip)
  -- remaining: a truthy string
  split at h
  · injection h with h; subst h
    exact ⟨by norm_num, by norm_num⟩
  · injection h with h; subst h
    exact inUnit_ite _ ⟨by norm_num, by norm_num⟩
      (inUnit_ite _ ⟨by norm_num, by norm_num⟩ u0)

lemma check_name_fraud_range (f l : Option PVal) (r : SubResult)
    (h : check_name_fraud f l = .ok r) : inUnit r.score := by
  have u0 : inUnit (0 : ℚ) := ⟨le_refl 0, by norm_num⟩
  have u5 : inUnit (0.5 : ℚ) := ⟨by norm_num, by norm_num⟩
  have u7 : inUnit (0.7 : ℚ) := ⟨by norm_num, by norm_num⟩
  have u8' : inUnit (0.8 : ℚ) := ⟨by norm_num, by norm_num⟩
  have hsc : ∀ c₁ c₂ c₃ : Prop, ∀ i₁ : Decidable c₁, ∀ i₂ : Decidable c₂,
      ∀ i₃ : Decidable c₃,
      inUnit (if c₃ then
          (if c₂ then (if c₁ then (0.8 : ℚ) else 0) ⊔ 0.7
           else if c₁ then 0.8 else 0) ⊔ 0.5
        else if c₂ then (if c₁ then (0.8 : ℚ) else 0) ⊔ 0.7
          else if c₁ then 0.8 else 0) := by
    intro c₁ c₂ c₃ i₁ i₂ i₃
    exact inUnit_ite _ (inUnit_max (inUnit_ite _ (inUnit_max (inUnit_ite _ u8' u0) u7)
        (inUnit_ite _ u8' u0)) u5)
      (inUnit_ite _ (inUnit_max (inUnit_ite _ u8' u0) u7) (inUnit_ite _ u8' u0))
  rcases f with _ | (_ | b | n | q | s | xs | fs) <;>
    rcases l with _ | (_ | b' | n' | q' | s' | xs' | fs') <;>
    simp only [check_name_fraud] at h <;>
    first
      | exact Except.noConfusion h
      | (injection h with h; subst h; exact u0)
      | (split at h <;>
          first
            | (injection h with h; subst h; exact u0)
            | exact Except.noConfusion h
            | skip)
  all_goals (injection h with h; subst h; exact hsc _ _ _ _ _ _)

lemma check_company_fraud_range (v : Option PVal) (r : SubResult)
    (h : check_company_fraud v = .ok r) : inUnit r.score := by
  have u0 : inUnit (0 : ℚ) := ⟨le_refl 0, by norm_num⟩
  rcases v with _ | (_ | b | n | q | s | xs | fs) <;>
    simp only [check_company_fraud] at h <;>
    first
      | (injection h with h; subst h; exact u0)
      | (split at h <;>
          first
            | (injection h with h; subst h; exact u0)
            | exact Except.noConfusion h
            | skip)
  -- remaining: a truthy string
  injection h with h; subst h
  exact inUnit_ite _
    (inUnit_max (inUnit_ite _ ⟨by norm_num, by norm_num⟩ u0)
      ⟨by norm_num, by norm_num⟩)
    (inUnit_ite _ ⟨by norm_num, by norm_num⟩ u0)

lemma check_pattern_consistency_range (ld : PDict) (r : SubResult)
    (h : check_pattern_consistency ld = .ok r) : inUnit r.score := by
  unfold check_pattern_consistency at h
  rcases h1 : pyLowerVal (dictGetD ld "Email" (.pstr "")) with e₁ | v₁ <;>
    rw [h1] at h
  · exact absurd h (by simp [except_bind_error])
  rw [except_bind_ok] at h
  rcases h2 : pyLowerVal (dictGetD ld "FirstName" (.pstr "")) with e₂ | v₂ <;>
    rw [h2] at h
  · exact absurd h (by simp [except_bind_error])
  rw [except_bind_ok] at h
  rcases h3 : pyLowerVal (dictGetD ld "LastName" (.pstr "")) with e₃ | v₃ <;>
    rw [h3] at h
  · exact absurd h (by simp [except_bind_error])
  rw [except_bind_ok] at h
  split at h
  · split at h <;> (injection h with h; subst h)
    · exact ⟨by norm_num, by norm_num⟩
    · exact ⟨le_refl 0, by norm_num⟩
  · injection h with h; subst h
    exact ⟨le_refl 0, by norm_num⟩

/-- The Optional values on which a fraud sub-check cannot raise: absent,
None, or a string. -/
def optStrSafe : Option PVal → Bool
  | none => true
  | some .pnone => true
  | some (.pstr _) => true
  | some _ => false

lemma check_email_fraud_isOk (v : Option PVal) (hv : optStrSafe v = true) :
    ∃ r, check_email_fraud v = .ok r := by
  rcases v with _ | (_ | b | n | q | s | xs | fs) <;> simp [optStrSafe] at hv
  · exact ⟨_, rfl⟩
  · exact ⟨_, rfl⟩
  · cases hE : check_email_fraud (some (.pstr s)) with
    | ok r => exact ⟨r, rfl⟩
    | error e =>
      simp only [check_email_fraud] at hE
      repeat' split at hE
      all_goals exact Except.noConfusion hE

lemma check_phone_fraud_isOk (v : Option PVal) (hv : optStrSafe v = true) :
    ∃ r, check_phone_fraud v = .ok r := by
  rcases v with _ | (_ | b | n | q | s | xs | fs) <;> simp [optStrSafe] at hv
  · exact ⟨_, rfl⟩
  · exact ⟨_, rfl⟩
  · cases hE : check_phone_fraud (some (.pstr s)) with
    | ok r => exact ⟨r, rfl⟩
    | error e =>
      simp only [check_phone_fraud] at hE
      repeat' split at hE
      all_goals exact Except.noConfusion hE

lemma check_name_fraud_isOk (f l : Option PVal) (hf : optStrSafe f = true)
    (hl : optStrSafe l = true) : ∃ r, check_name_fraud f l = .ok r := by
  cases hE : check_name_fraud f l with
  | ok r => exact ⟨r, rfl⟩
  | error e =>
    rcases f with _ | (_ | b | n | q | s | xs | fs) <;> simp [optStrSafe] at hf <;>
      rcases l with _ | (_ | b' | n' | q' | s' | xs' | fs') <;> simp [optStrSafe] at hl <;>
      simp only [check_name_fraud] at hE <;>
      repeat' split at hE
    all_goals first
      | exact Except.noConfusion hE
      | simp_all [optTruthy, pvalTruthy]

lemma check_company_fraud_isOk (v : Option PVal) (hv : optStrSafe v = true) :
    ∃ r, check_company_fraud v = .ok r := by
  rcases v with _ | (_ | b | n | q | s | xs | fs) <;> simp [optStrSafe] at hv
  · exact ⟨_, rfl⟩
  · exact ⟨_, rfl⟩
  · cases hE : check_company_fraud (some (.pstr s)) with
    | ok r => exact ⟨r, rfl⟩
    | error e =>
      simp only [check_company_fraud] at hE
      repeat' split at hE
      all_goals exact Except.noConfusion hE

lemma pyLower_getD_ok (ld : PDict) (k : String) (h : strOrAbsent ld k = true) :
    ∃ s, pyLowerVal (dictGetD ld k (.pstr "")) = .ok s := by
  unfold strOrAbsent at h
  unfold dictGetD
  cases hL : List.lookup k ld with
  | none => exact ⟨_, rfl⟩
  | some v =>
    rw [hL] at h
    rcases v with _ | b | n | q | s | xs | fs <;> simp at h
    exact ⟨_, rfl⟩

lemma check_pattern_consistency_isOk (ld : PDict)
    (h1 : strOrAbsent ld "Email" = true) (h2 : strOrAbsent ld "FirstName" = true)
    (h3 : strOrAbsent ld "LastName" = true) :
    ∃ r, check_pattern_consistency ld = .ok r := by
  obtain ⟨s₁, hs₁⟩ := pyLower_getD_ok ld "Email" h1
  obtain ⟨s₂, hs₂⟩ := pyLower_getD_ok ld "FirstName" h2
  obtain ⟨s₃, hs₃⟩ := pyLower_getD_ok ld "LastName" h3
  unfold check_pattern_consistency
  rw [hs₁, except_bind_ok, hs₂, except_bind_ok, hs₃, except_bind_ok]
  split
  · split
    · exact ⟨_, rfl⟩
    · exact ⟨_, rfl⟩
  · exact ⟨_, rfl⟩

/-- strOrAbsent implies optStrSafe on the looked-up value. -/
lemma optStrSafe_of_strOrAbsent (ld : PDict) (k : String)
    (h : strOrAbsent ld k = true) : optStrSafe (dictGet ld k) = true := by
  unfold strOrAbsent at h
  unfold dictGet optStrSafe
  cases hL : List.lookup k ld with
  | none => rfl
  | some v => rw [hL] at h; rcases v <;> simp_all

/-- strNoneOrAbsent implies optStrSafe on the looked-up value. -/
lemma optStrSafe_of_strNoneOrAbsent (ld : PDict) (k : String)
    (h : strNoneOrAbsent ld k = true) : optStrSafe (dictGet ld k) = true := by
  unfold strNoneOrAbsent at h
  unfold dictGet optStrSafe
  cases hL : List.lookup k ld with
  | none => rfl
  | some v => rw [hL] at h; rcases v <;> simp_all

/-- Structure of a successful calculate_fraud_score call: the five
sub-check results exist, the returned score is exactly their weighted
sum (the cap at 1.0 never binds), and the verdict fields are functions
of that score. -/
lemma calculate_fraud_score_spec (ld : PDict) (r : FraudResult)
    (h : calculate_fraud_score ld = .ok r) :
    ∃ e p n c k : SubResult,
      check_email_fraud (dictGet ld "Email") = .ok e ∧
      check_phone_fraud (dictGet ld "Phone") = .ok p ∧
      check_name_fraud (dictGet ld "FirstName") (dictGet ld "LastName") = .ok n ∧
      check_company_fraud (dictGet ld "Company") = .ok c ∧
      check_pattern_consistency ld = .ok k ∧
      r.fraud_score = e.score * 0.3 + p.score * 0.25 + n.score * 0.2
        + c.score * 0.15 + k.score * 0.1 ∧
      e.score * 0.3 + p.score * 0.25 + n.score * 0.2 + c.score * 0.15
        + k.score * 0.1 ≤ 1 ∧
      r.is_likely_fake = decide (r.fraud_score ≥ 0.7) ∧
      r.risk_level = determine_risk_level r.fraud_score := by
  unfold calculate_fraud_score at h
  rcases hE : check_email_fraud (dictGet ld "Email") with msg | e <;> rw [hE] at h
  · exact absurd h (by simp [except_bind_error])
  rw [except_bind_ok] at h
  rcases hP : check_phone_fraud (dictGet ld "Phone") with msg | p <;> rw [hP] at h
  · exact absurd h (by simp [except_bind_error])
  rw [except_bind_ok] at h
  rcases hN : check_name_fraud (dictGet ld "FirstName") (dictGet ld "LastName")
      with msg | n <;> rw [hN] at h
  · exact absurd h (by simp [except_bind_error])
  rw [except_bind_ok] at h
  rcases hC : check_company_fraud (dictGet ld "Company") with msg | c <;>
    rw [hC] at h
  · exact absurd h (by simp [except_bind_error])
  rw [except_bind_ok] at h
  rcases hK : check_pattern_consistency ld with msg | k <;> rw [hK] at h
  · exact absurd h (by simp [except_bind_error])
  rw [except_bind_ok] at h
  obtain ⟨he0, he1⟩ := check_email_fraud_range _ _ hE
  obtain ⟨hp0, hp1⟩ := check_phone_fraud_range _ _ hP
  obtain ⟨hn0, hn1⟩ := check_name_fraud_range _ _ _ hN
  obtain ⟨hc0, hc1⟩ := check_company_fraud_range _ _ hC
  obtain ⟨hk0, hk1⟩ := check_pattern_consistency_range _ _ hK
  have htot : e.score * 0.3 + p.score * 0.25 + n.score * 0.2 + c.score * 0.15
      + k.score * 0.1 ≤ 1 := by nlinarith
  injection h with h
  subst h
  dsimp only
  rw [min_eq_left htot]
  exact ⟨e, p, n, c, k, rfl, rfl, rfl, rfl, rfl, rfl, htot, rfl, rfl⟩

/-- Characterisation of the risk-tier if chain. -/
lemma determine_risk_level_iff (q : ℚ) :
    (determine_risk_level q = "CRITICAL" ↔ 0.8 ≤ q) ∧
    (determine_risk_level q = "HIGH" ↔ 0.6 ≤ q ∧ q < 0.8) ∧
    (determine_risk_level q = "MEDIUM" ↔ 0.4 ≤ q ∧ q < 0.6) ∧
    (determine_risk_level q = "LOW" ↔ 0.2 ≤ q ∧ q < 0.4) ∧
    (determine_risk_level q = "MINIMAL" ↔ q < 0.2) := by
  unfold determine_risk_level
  split_ifs with h1 h2 h3 h4 <;>
    refine ⟨⟨fun hs => ?_, fun hq => ?_⟩, ⟨fun hs => ?_, fun hq => ?_⟩,
      ⟨fun hs => ?_, fun hq => ?_⟩, ⟨fun hs => ?_, fun hq => ?_⟩,
      ⟨fun hs => ?_, fun hq => ?_⟩⟩ <;>
    first
      | rfl
      | linarith
      | exact absurd hs (by decide)
      | (exact ⟨by linarith, by linarith⟩)
      | (exfalso; rcases hq with ⟨hq1, hq2⟩; linarith)
      | (exfalso; linarith)

/-- A phone string whose digit filtrate is 1234567890 drives
_check_phone_fraud to the exact fake-pattern branch: sub-score 1. -/
lemma check_phone_fraud_fake (s : String)
    (hs : String.mk (s.toList.filter (·.isDigit)) = "1234567890")
    (p : SubResult) (hp : check_phone_fraud (some (.pstr s)) = .ok p) :
    p.score = 1 := by
  have hsne : s ≠ "" := by
    intro h
    rw [h] at hs
    exact absurd hs (by decide)
  have ht : pvalTruthy (PVal.pstr s) = true := by simp [pvalTruthy, hsne]
  simp only [check_phone_fraud] at hp
  rw [hs] at hp
  rw [if_neg (by simp [ht]),
    if_pos (by decide : (fake_phone_patterns.contains "1234567890") = true)] at hp
  injection hp with hp
  subst hp
  rfl

/-- An email matching the first fake pattern drives _check_email_fraud to
the fake-pattern branch: sub-score 1. -/
lemma check_email_fraud_test_pattern (s : String)
    (hm : matchTestAt (lowerStr s).toList = true)
    (e : SubResult) (he : check_email_fraud (some (.pstr s)) = .ok e) :
    e.score = 1 := by
  have hsne : s ≠ "" := by
    intro h
    rw [h] at hm
    exact absurd hm (by decide)
  have ht : pvalTruthy (PVal.pstr s) = true := by simp [pvalTruthy, hsne]
  have hfake : matchesFakeEmailPattern (lowerStr s).toList = true := by
    unfold matchesFakeEmailPattern
    rw [hm]
    rfl
  simp only [check_email_fraud] at he
  rw [if_neg (by simp [ht]), if_pos hfake] at he
  injection he with he
  subst he
  rfl

end FraudDetection

/-- Order of the five status labels, used to state that classification
is monotone in the overall score. -/
def statusRank : String → Nat
  | "Excellent" => 4
  | "Good" => 3
  | "Fair" => 2
  | "Poor" => 1
  | _ => 0

/-! ## Claims C1–C4 -/

/-- C1 (counterexample): a lead mapping whose Email field is explicitly
bound to None — a combination the claim covers — makes
calculate_fraud_score raise AttributeError instead of returning a score:
the cross-field consistency check calls .lower() on the result of a get
with a string default, and the stored None is returned. -/
theorem claim_C1_counterexample :
    FraudDetection.calculate_fraud_score [("Email", PVal.pnone)]
      = .error "AttributeError: object has no attribute lower" := rfl

/-- C1 (amended): for every lead mapping whose Email, FirstName and
LastName fields are absent or strings (explicit None in those three
raises) and whose Phone and Company fields are absent, None or strings,
calculate_fraud_score returns without exception a fraud score in [0,1];
on the all-absent mapping it returns score 0 and risk MINIMAL. -/
theorem claim_C1 :
    (∀ ld : PDict,
      FraudDetection.strOrAbsent ld "Email" = true →
      FraudDetection.strOrAbsent ld "FirstName" = true →
      FraudDetection.strOrAbsent ld "LastName" = true →
      FraudDetection.strNoneOrAbsent ld "Phone" = true →
      FraudDetection.strNoneOrAbsent ld "Company" = true →
      ∃ r, FraudDetection.calculate_fraud_score ld = .ok r ∧
        0 ≤ r.fraud_score ∧ r.fraud_score ≤ 1) ∧
    FraudDetection.calculate_fraud_score []
      = .ok { fraud_score := 0, fraud_indicators := [],
              is_likely_fake := false, risk_level := "MINIMAL" } := by
  constructor
  · intro ld h1 h2 h3 h4 h5
    obtain ⟨e, hE⟩ := FraudDetection.check_email_fraud_isOk _
      (FraudDetection.optStrSafe_of_strOrAbsent ld "Email" h1)
    obtain ⟨p, hP⟩ := FraudDetection.check_phone_fraud_isOk _
      (FraudDetection.optStrSafe_of_strNoneOrAbsent ld "Phone" h4)
    obtain ⟨n, hN⟩ := FraudDetection.check_name_fraud_isOk _ _
      (FraudDetection.optStrSafe_of_strOrAbsent ld "FirstName" h2)
      (FraudDetection.optStrSafe_of_strOrAbsent ld "LastName" h3)
    obtain ⟨c, hC⟩ := FraudDetection.check_company_fraud_isOk _
      (FraudDetection.optStrSafe_of_strNoneOrAbsent ld "Company" h5)
    obtain ⟨k, hK⟩ := FraudDetection.check_pattern_consistency_isOk ld h1 h2 h3
    obtain ⟨he0, he1⟩ := FraudDetection.check_email_fraud_range _ _ hE
    obtain ⟨hp0, hp1⟩ := FraudDetection.check_phone_fraud_range _ _ hP
    obtain ⟨hn0, hn1⟩ := FraudDetection.check_name_fraud_range _ _ _ hN
    obtain ⟨hc0, hc1⟩ := FraudDetection.check_company_fraud_range _ _ hC
    obtain ⟨hk0, hk1⟩ := FraudDetection.check_pattern_consistency_range _ _ hK
    unfold FraudDetection.calculate_fraud_score
    rw [hE, except_bind_ok, hP, except_bind_ok, hN, except_bind_ok, hC,
      except_bind_ok, hK, except_bind_ok]
    refine ⟨_, rfl, ?_, ?_⟩
    · dsimp only
      exact le_min (by nlinarith) (by norm_num)
    · dsimp only
      exact min_le_right _ _
  · rfl

/-- C1 (witness): the amended statement applied at a concrete lead. -/
theorem claim_C1_witness :
    ∃ r, FraudDetection.calculate_fraud_score
        [("Email", PVal.pstr "jane@acme.com"), ("Phone", PVal.pnone)] = .ok r ∧
      0 ≤ r.fraud_score ∧ r.fraud_score ≤ 1 :=
  claim_C1.1 [("Email", PVal.pstr "jane@acme.com"), ("Phone", PVal.pnone)]
    (by decide) (by decide) (by decide) (by decide) (by decide)

/-- C2 (counterexample): a lead whose phone digit string is exactly
1234567890 gets final fraud score 0.25 (the 1.0 phone sub-score times
its 0.25 weight), far below the claimed 0.9. -/
theorem claim_C2_counterexample :
    (FraudDetection.calculate_fraud_score [("Phone", PVal.pstr "1234567890")]).map
        FraudDetection.FraudResult.fraud_score = .ok 0.25 ∧ (0.25 : ℚ) < 0.9 := by
  constructor
  · rfl
  · norm_num

/-- C2 (amended): a phone whose digit string is 1234567890 makes the
phone sub-check return sub-score 1.0, hence final score at least its
weight 0.25; an email matching test.*@.* makes the email sub-check
return sub-score 1.0, hence final score at least its weight 0.3.  The
0.9 bound of the claim holds for the sub-scores, not the final score. -/
theorem claim_C2 : ∀ (ld : PDict) (r : FraudDetection.FraudResult),
    FraudDetection.calculate_fraud_score ld = .ok r →
    (∀ s, List.lookup "Phone" ld = some (.pstr s) →
      String.mk (s.toList.filter (·.isDigit)) = "1234567890" →
      ∃ p, FraudDetection.check_phone_fraud (dictGet ld "Phone") = .ok p ∧
        p.score = 1 ∧ 0.25 ≤ r.fraud_score) ∧
    (∀ s, List.lookup "Email" ld = some (.pstr s) →
      FraudDetection.matchTestAt (lowerStr s).toList = true →
      ∃ e, FraudDetection.check_email_fraud (dictGet ld "Email") = .ok e ∧
        e.score = 1 ∧ 0.3 ≤ r.fraud_score) := by
  intro ld r h
  obtain ⟨e, p, n, c, k, hE, hP, hN, hC, hK, hscore, htot, hlf, hrl⟩ :=
    FraudDetection.calculate_fraud_score_spec ld r h
  obtain ⟨he0, he1⟩ := FraudDetection.check_email_fraud_range _ _ hE
  obtain ⟨hp0, hp1⟩ := FraudDetection.check_phone_fraud_range _ _ hP
  obtain ⟨hn0, hn1⟩ := FraudDetection.check_name_fraud_range _ _ _ hN
  obtain ⟨hc0, hc1⟩ := FraudDetection.check_company_fraud_range _ _ hC
  obtain ⟨hk0, hk1⟩ := FraudDetection.check_pattern_consistency_range _ _ hK
  constructor
  · intro s hlk hdig
    have hP' : FraudDetection.check_phone_fraud (some (.pstr s)) = .ok p := by
      rw [← hP]
      unfold dictGet
      rw [hlk]
    have hps := FraudDetection.check_phone_fraud_fake s hdig p hP'
    refine ⟨p, hP, hps, ?_⟩
    rw [hscore, hps]
    nlinarith
  · intro s hlk hm
    have hE' : FraudDetection.check_email_fraud (some (.pstr s)) = .ok e := by
      rw [← hE]
      unfold dictGet
      rw [hlk]
    have hes := FraudDetection.check_email_fraud_test_pattern s hm e hE'
    refine ⟨e, hE, hes, ?_⟩
    rw [hscore, hes]
    nlinarith

/-- C2 (witness): the amended statement applied to a concrete lead with
the fake phone and a test email. -/
theorem claim_C2_witness :
    ∃ p, FraudDetection.check_phone_fraud
        (dictGet [("Phone", PVal.pstr "123-456-7890"),
          ("Email", PVal.pstr "test1@x.org")] "Phone") = .ok p ∧
      p.score = 1 ∧ (0.25 : ℚ) ≤ (0.55 : ℚ) :=
  ((claim_C2 [("Phone", PVal.pstr "123-456-7890"), ("Email", PVal.pstr "test1@x.org")]
      { fraud_score := 0.55, fraud_indicators :=
          ["Fake email pattern: test1@x.org", "Fake phone pattern: 123-456-7890"],
        is_likely_fake := false, risk_level := "MEDIUM" }
      (by rfl)).1) "123-456-7890" (by rfl) (by rfl)

/-- C3: the fused overall score is 0.7 times the quality score plus 0.3
times the inverted fraud score, the status label is characterised by
the fixed thresholds, and the classification is monotone in the score. -/
theorem claim_C3 :
    (∀ q f : ℚ, 0 ≤ q → q ≤ 1 → 0 ≤ f → f ≤ 1 →
      LeadRules.calculate_combined_score q f = 0.7 * q + 0.3 * (1 - f)) ∧
    (∀ s : ℚ,
      (LeadRules.determine_validation_status s = "Excellent" ↔ 0.9 ≤ s) ∧
      (LeadRules.determine_validation_status s = "Good" ↔ 0.8 ≤ s ∧ s < 0.9) ∧
      (LeadRules.determine_validation_status s = "Fair" ↔ 0.6 ≤ s ∧ s < 0.8) ∧
      (LeadRules.determine_validation_status s = "Poor" ↔ 0.4 ≤ s ∧ s < 0.6) ∧
      (LeadRules.determine_validation_status s = "Invalid" ↔ s < 0.4)) ∧
    (∀ s₁ s₂ : ℚ, s₁ ≤ s₂ →
      statusRank (LeadRules.determine_validation_status s₁)
        ≤ statusRank (LeadRules.determine_validation_status s₂)) := by
  refine ⟨?_, ?_, ?_⟩
  · intro q f _ _ _ _
    unfold LeadRules.calculate_combined_score
    ring
  · intro s
    unfold LeadRules.determine_validation_status
    split_ifs with h1 h2 h3 h4 <;>
      refine ⟨⟨fun hs => ?_, fun hq => ?_⟩, ⟨fun hs => ?_, fun hq => ?_⟩,
        ⟨fun hs => ?_, fun hq => ?_⟩, ⟨fun hs => ?_, fun hq => ?_⟩,
        ⟨fun hs => ?_, fun hq => ?_⟩⟩ <;>
      first
        | rfl
        | linarith
        | exact absurd hs (by decide)
        | (exact ⟨by linarith, by linarith⟩)
        | (exfalso; rcases hq with ⟨hq1, hq2⟩; linarith)
        | (exfalso; linarith)
  · intro s₁ s₂ h
    unfold LeadRules.determine_validation_status
    split_ifs <;> first | decide | (exfalso; linarith)

/-- C3 (witness): the fusion formula at concrete scores. -/
theorem claim_C3_witness :
    LeadRules.calculate_combined_score 0.5 0.25 = 0.7 * 0.5 + 0.3 * (1 - 0.25) :=
  claim_C3.1 0.5 0.25 (by norm_num) (by norm_num) (by norm_num) (by norm_num)

/-- C4: every returned fraud score is exactly the weighted sum of the
five sub-check scores (email 0.30, phone 0.25, name 0.20, company 0.15,
consistency 0.10), each sub-score lies in [0,1], the sum never exceeds
1 so the cap is idle, the risk tier is characterised by the 0.8/0.6/
0.4/0.2 thresholds, and the likely-fake verdict is score at least 0.7. -/
theorem claim_C4 : ∀ (ld : PDict) (r : FraudDetection.FraudResult),
    FraudDetection.calculate_fraud_score ld = .ok r →
    ∃ e p n c k : FraudDetection.SubResult,
      FraudDetection.check_email_fraud (dictGet ld "Email") = .ok e ∧
      FraudDetection.check_phone_fraud (dictGet ld "Phone") = .ok p ∧
      FraudDetection.check_name_fraud (dictGet ld "FirstName")
        (dictGet ld "LastName") = .ok n ∧
      FraudDetection.check_company_fraud (dictGet ld "Company") = .ok c ∧
      FraudDetection.check_pattern_consistency ld = .ok k ∧
      r.fraud_score = e.score * 0.3 + p.score * 0.25 + n.score * 0.2
        + c.score * 0.15 + k.score * 0.1 ∧
      inUnit e.score ∧ inUnit p.score ∧ inUnit n.score ∧ inUnit c.score ∧
      inUnit k.score ∧
      min (e.score * 0.3 + p.score * 0.25 + n.score * 0.2 + c.score * 0.15
        + k.score * 0.1) 1
        = e.score * 0.3 + p.score * 0.25 + n.score * 0.2 + c.score * 0.15
          + k.score * 0.1 ∧
      (r.risk_level = "CRITICAL" ↔ 0.8 ≤ r.fraud_score) ∧
      (r.risk_level = "HIGH" ↔ 0.6 ≤ r.fraud_score ∧ r.fraud_score < 0.8) ∧
      (r.risk_level = "MEDIUM" ↔ 0.4 ≤ r.fraud_score ∧ r.fraud_score < 0.6) ∧
      (r.risk_level = "LOW" ↔ 0.2 ≤ r.fraud_score ∧ r.fraud_score < 0.4) ∧
      (r.risk_level = "MINIMAL" ↔ r.fraud_score < 0.2) ∧
      (r.is_likely_fake = true ↔ 0.7 ≤ r.fraud_score) := by
  intro ld r h
  obtain ⟨e, p, n, c, k, hE, hP, hN, hC, hK, hscore, htot, hlf, hrl⟩ :=
    FraudDetection.calculate_fraud_score_spec ld r h
  obtain ⟨hi1, hi2, hi3, hi4, hi5⟩ := FraudDetection.determine_risk_level_iff r.fraud_score
  refine ⟨e, p, n, c, k, hE, hP, hN, hC, hK, hscore,
    FraudDetection.check_email_fraud_range _ _ hE,
    FraudDetection.check_phone_fraud_range _ _ hP,
    FraudDetection.check_name_fraud_range _ _ _ hN,
    FraudDetection.check_company_fraud_range _ _ hC,
    FraudDetection.check_pattern_consistency_range _ _ hK,
    min_eq_left htot, ?_, ?_, ?_, ?_, ?_, ?_⟩
  · rw [hrl]; exact hi1
  · rw [hrl]; exact hi2
  · rw [hrl]; exact hi3
  · rw [hrl]; exact hi4
  · rw [hrl]; exact hi5
  · rw [hlf]
    simp [ge_iff_le]

/-- C4 (witness): the spec applied at the all-absent lead. -/
theorem claim_C4_witness :
    ∃ e p n c k : FraudDetection.SubResult,
      FraudDetection.check_email_fraud (dictGet [] "Email") = .ok e ∧
      FraudDetection.check_phone_fraud (dictGet [] "Phone") = .ok p ∧
      FraudDetection.check_name_fraud (dictGet [] "FirstName")
        (dictGet [] "LastName") = .ok n ∧
      FraudDetection.check_company_fraud (dictGet [] "Company") = .ok c ∧
      FraudDetection.check_pattern_consistency [] = .ok k ∧
      (FraudDetection.FraudResult.mk 0 [] false "MINIMAL").fraud_score
        = e.score * 0.3 + p.score * 0.25 + n.score * 0.2
          + c.score * 0.15 + k.score * 0.1 ∧
      inUnit e.score ∧ inUnit p.score ∧ inUnit n.score ∧ inUnit c.score ∧
      inUnit k.score ∧
      min (e.score * 0.3 + p.score * 0.25 + n.score * 0.2 + c.score * 0.15
        + k.score * 0.1) 1
        = e.score * 0.3 + p.score * 0.25 + n.score * 0.2 + c.score * 0.15
          + k.score * 0.1 ∧
      ((FraudDetection.FraudResult.mk 0 [] false "MINIMAL").risk_level = "CRITICAL"
        ↔ 0.8 ≤ (FraudDetection.FraudResult.mk 0 [] false "MINIMAL").fraud_score) ∧
      ((FraudDetection.FraudResult.mk 0 [] false "MINIMAL").risk_level = "HIGH"
        ↔ 0.6 ≤ (FraudDetection.FraudResult.mk 0 [] false "MINIMAL").fraud_score
          ∧ (FraudDetection.FraudResult.mk 0 [] false "MINIMAL").fraud_score < 0.8) ∧
      ((FraudDetection.FraudResult.mk 0 [] false "MINIMAL").risk_level = "MEDIUM"
        ↔ 0.4 ≤ (FraudDetection.FraudResult.mk 0 [] false "MINIMAL").fraud_score
          ∧ (FraudDetection.FraudResult.mk 0 [] false "MINIMAL").fraud_score < 0.6) ∧
      ((FraudDetection.FraudResult.mk 0 [] false "MINIMAL").risk_level = "LOW"
        ↔ 0.2 ≤ (FraudDetection.FraudResult.mk 0 [] false "MINIMAL").fraud_score
          ∧ (FraudDetection.FraudResult.mk 0 [] false "MINIMAL").fraud_score < 0.4) ∧
      ((FraudDetection.FraudResult.mk 0 [] false "MINIMAL").risk_level = "MINIMAL"
        ↔ (FraudDetection.FraudResult.mk 0 [] false "MINIMAL").fraud_score < 0.2) ∧
      ((FraudDetection.FraudResult.mk 0 [] false "MINIMAL").is_likely_fake = true
        ↔ 0.7 ≤ (FraudDetection.FraudResult.mk 0 [] false "MINIMAL").fraud_score) :=
  claim_C4 [] (FraudDetection.FraudResult.mk 0 [] false "MINIMAL") (by rfl)

lemma mapM_ok_length {α β : Type} (f : α → Except String β) :
    ∀ (l : List α) (out : List β), l.mapM f = .ok out → out.length = l.length := by
  intro l
  induction l with
  | nil =>
    intro out h
    simp only [List.mapM_nil, pure] at h
    cases h
    rfl
  | cons a l ih =>
    intro out h
    rw [List.mapM_cons] at h
    cases hfa : f a with
    | error e => rw [hfa] at h; simp [except_bind_error] at h
    | ok b =>
      rw [hfa, except_bind_ok] at h
      cases hl : l.mapM f with
      | error e => rw [hl] at h; simp [except_bind_error] at h
      | ok bs =>
        rw [hl, except_bind_ok] at h
        simp only [pure] at h
        cases h
        simp [ih bs hl]

/-! ## Lemmas about the description parser -/

namespace Parser

lemma tableEntries_eq_nil {β : Type} (rows : List (String × β))
    (h : β → Option PVal) (hn : ∀ r ∈ rows, h r.2 = none) :
    tableEntries rows h = [] := by
  induction rows with
  | nil => rfl
  | cons r rows ih =>
    obtain ⟨k₀, b₀⟩ := r
    rw [tableEntries_cons, hn (k₀, b₀) (by simp)]
    exact ih (fun r hr => hn r (by simp [hr]))

lemma map_eq_tableEntries {β : Type} (rows : List (String × β)) (g : β → PVal) :
    rows.map (fun r => (r.1, g r.2)) = tableEntries rows (fun b => some (g b)) := by
  induction rows with
  | nil => rfl
  | cons r rows ih =>
    rw [List.map_cons, tableEntries_cons, ih]

lemma extractSection_keys_sublist (header : String)
    (rows : List (String × FieldSpec)) (d : String) :
    ((extractSection header rows d).map Prod.fst).Sublist (rows.map Prod.fst) := by
  unfold extractSection
  cases sectionContent header d
  · simp
  · exact tableEntries_keys_sublist _ _

lemma lookup_extractSection_of_not_mem (header : String)
    (rows : List (String × FieldSpec)) (d k : String)
    (hk : k ∉ rows.map Prod.fst) :
    List.lookup k (extractSection header rows d) = none := by
  unfold extractSection
  cases sectionContent header d
  · rfl
  · exact lookup_tableEntries_of_not_mem _ _ _ hk

lemma lookup_extractSection_of_mem (header : String)
    (rows : List (String × FieldSpec)) (d k : String) (spec : FieldSpec)
    (content : String) (hn : (rows.map Prod.fst).Nodup)
    (hm : (k, spec) ∈ rows) (hc : sectionContent header d = some content) :
    List.lookup k (extractSection header rows d)
      = (spec.1 content.toList).map spec.2 := by
  unfold extractSection
  rw [hc]
  exact lookup_tableEntries_of_mem _ _ _ _ hn hm

lemma extractSection_of_no_section (header : String)
    (rows : List (String × FieldSpec)) (d : String)
    (hc : sectionContent header d = none) :
    extractSection header rows d = [] := by
  unfold extractSection
  rw [hc]

lemma lead_fields_keys : lead_validation_fields.map Prod.fst
    = ["lead_score", "quality_score", "data_quality", "fraud_score",
       "recommendation", "quality_level", "fraud_risk", "market_segment"] := rfl

lemma phone_fields_keys : phone_validation_fields.map Prod.fst
    = ["phone_valid", "phone_carrier", "phone_type", "phone_national_format"] := rfl

lemma email_fields_keys : email_validation_fields.map Prod.fst
    = ["email_valid", "email_sendable", "bounce_likely", "gibberish_score"] := rfl

lemma summary_fields_keys : email_summary_fields.map Prod.fst
    = ["total_emails", "valid_emails", "sendable_emails", "email_quality_score"] := rfl

lemma lead_section_keys_nodup (d : String) :
    ((extract_lead_validation_section d).map Prod.fst).Nodup := by
  refine List.Nodup.sublist (extractSection_keys_sublist _ _ _) ?_
  rw [lead_fields_keys]
  decide

lemma phone_section_keys_nodup (d : String) :
    ((extract_phone_validation_section d).map Prod.fst).Nodup := by
  refine List.Nodup.sublist (extractSection_keys_sublist _ _ _) ?_
  rw [phone_fields_keys]
  decide

lemma email_section_keys_nodup (d : String) :
    ((extract_email_validation_section d).map Prod.fst).Nodup := by
  refine List.Nodup.sublist (extractSection_keys_sublist _ _ _) ?_
  rw [email_fields_keys]
  decide

lemma summary_section_keys_nodup (d : String) :
    ((extract_email_summary_section d).map Prod.fst).Nodup := by
  refine List.Nodup.sublist (extractSection_keys_sublist _ _ _) ?_
  rw [summary_fields_keys]
  decide

/-- Lookup in the section-merged dict decomposes into the last section
that defines the key, falling back to the initial dict. -/
lemma lookup_sectionsMerged (d : String) (k : String) :
    List.lookup k (sectionsMerged d)
      = ((List.lookup k (extract_email_summary_section d)).or
          ((List.lookup k (extract_email_validation_section d)).or
            ((List.lookup k (extract_phone_validation_section d)).or
              ((List.lookup k (extract_lead_validation_section d)).or
                (List.lookup k (initResult d)))))) := by
  unfold sectionsMerged
  rw [lookup_pyUpdate _ _ _ (summary_section_keys_nodup d),
    lookup_pyUpdate _ _ _ (email_section_keys_nodup d),
    lookup_pyUpdate _ _ _ (phone_section_keys_nodup d),
    lookup_pyUpdate _ _ _ (lead_section_keys_nodup d)]

/-- A key declared in no section and not one of the three initial keys is
absent from the merged dict. -/
lemma lookup_sectionsMerged_none (d : String) (k : String)
    (h1 : k ∉ lead_validation_fields.map Prod.fst)
    (h2 : k ∉ phone_validation_fields.map Prod.fst)
    (h3 : k ∉ email_validation_fields.map Prod.fst)
    (h4 : k ∉ email_summary_fields.map Prod.fst)
    (h0 : k ∉ (["raw_description", "validation_sections", "raw_api_response"] : List String)) :
    List.lookup k (sectionsMerged d) = none := by
  rw [lookup_sectionsMerged]
  unfold extract_lead_validation_section extract_phone_validation_section
    extract_email_validation_section extract_email_summary_section
  rw [
    lookup_extractSection_of_not_mem _ _ _ _ h4,
    lookup_extractSection_of_not_mem _ _ _ _ h3,
    lookup_extractSection_of_not_mem _ _ _ _ h2,
    lookup_extractSection_of_not_mem _ _ _ _ h1,
    (lookup_eq_none_iff _ _).mpr (by
      rw [show (initResult d).map Prod.fst
        = ["raw_description", "validation_sections", "raw_api_response"] from rfl]
      exact h0)]
  rfl

/-- raw_api_response in the merged dict is the initial empty dict: no
section table declares that key. -/
lemma lookup_sectionsMerged_raw (d : String) :
    List.lookup "raw_api_response" (sectionsMerged d) = some (.pdict []) := by
  rw [lookup_sectionsMerged]
  unfold extract_lead_validation_section extract_phone_validation_section
    extract_email_validation_section extract_email_summary_section
  rw [
    lookup_extractSection_of_not_mem _ _ _ _ (by rw [summary_fields_keys]; decide),
    lookup_extractSection_of_not_mem _ _ _ _ (by rw [email_fields_keys]; decide),
    lookup_extractSection_of_not_mem _ _ _ _ (by rw [phone_fields_keys]; decide),
    lookup_extractSection_of_not_mem _ _ _ _ (by rw [lead_fields_keys]; decide)]
  rfl

lemma lookup_sectionsMerged_parse_error (d : String) :
    List.lookup "parse_error" (sectionsMerged d) = none := by
  refine lookup_sectionsMerged_none d "parse_error" ?_ ?_ ?_ ?_ ?_ <;>
    first
      | (rw [lead_fields_keys]; decide)
      | (rw [phone_fields_keys]; decide)
      | (rw [email_fields_keys]; decide)
      | (rw [summary_fields_keys]; decide)
      | decide

/-- The possible shapes of one array-field block. -/
lemma arrayEntry_cases (fields : PDict) (dst src : String) (part : PDict)
    (h : arrayEntry fields dst src = .ok part) :
    (List.lookup src fields = none ∧ part = []) ∨
    (∃ v j, List.lookup src fields = some v ∧ pyJoinComma v = .ok j ∧
      part = [(dst, PVal.pstr j)]) := by
  unfold arrayEntry at h
  cases hl : List.lookup src fields <;> rw [hl] at h <;> (try dsimp only at h)
  · left
    refine ⟨rfl, ?_⟩
    injection h with h
    exact h.symm
  · right
    rename_i v
    cases hj : pyJoinComma v <;> rw [hj] at h
    · exact absurd h (by simp [except_bind_error])
    · rw [except_bind_ok] at h
      injection h with h
      exact ⟨v, _, rfl, hj, h.symm⟩

lemma arrayEntry_lookup_ne (fields : PDict) (dst src : String) (part : PDict)
    (h : arrayEntry fields dst src = .ok part) (k : String) (hk : k ≠ dst) :
    List.lookup k part = none := by
  rcases arrayEntry_cases fields dst src part h with ⟨_, rfl⟩ | ⟨v, j, _, _, rfl⟩
  · rfl
  · rw [lookup_cons_ne _ _ _ _ hk]
    rfl

/-- The possible shapes of the emailSummary block. -/
lemma emailSummaryEntries_cases (fields : PDict) (sm : PDict)
    (h : emailSummaryEntries fields = .ok sm) :
    ((∀ es, List.lookup "emailSummary" fields ≠ some (.pdict es)) ∧ sm = []) ∨
    (∃ es, List.lookup "emailSummary" fields = some (.pdict es) ∧
      sm = email_summary_leaves.map
        (fun le => (le.1, (List.lookup le.2 es).getD .pnone))) := by
  unfold emailSummaryEntries at h
  cases hl : List.lookup "emailSummary" fields <;> rw [hl] at h
  · left
    refine ⟨by simp [hl], ?_⟩
    injection h with h
    exact h.symm
  · rename_i v
    rcases v with _ | b | n | q | s | xs | es
    · exact absurd h (by simp)
    · exact absurd h (by simp)
    · exact absurd h (by simp)
    · exact absurd h (by simp)
    · exact absurd h (by simp)
    · exact absurd h (by simp)
    · right
      injection h with h
      exact ⟨es, rfl, h.symm⟩

lemma summary_map_eq_tableEntries (es : List (String × PVal)) :
    email_summary_leaves.map (fun le => (le.1, (List.lookup le.2 es).getD PVal.pnone))
      = tableEntries email_summary_leaves
          (fun src => some ((List.lookup src es).getD PVal.pnone)) :=
  map_eq_tableEntries email_summary_leaves
    (fun src => (List.lookup src es).getD PVal.pnone)

lemma emailSummaryEntries_lookup_ne (fields : PDict) (sm : PDict)
    (h : emailSummaryEntries fields = .ok sm) (k : String)
    (hk : k ∉ email_summary_leaves.map Prod.fst) :
    List.lookup k sm = none := by
  rcases emailSummaryEntries_cases fields sm h with ⟨_, rfl⟩ | ⟨es, _, rfl⟩
  · rfl
  · rw [summary_map_eq_tableEntries]
    exact lookup_tableEntries_of_not_mem _ _ _ hk

/-- Flattening the decode-failure marker dict touches none of the mapped
keys and succeeds with an empty flattened dict. -/
lemma flatten_marker (e c : String) :
    flatten_api_response
        (.pdict [("json_parse_error", .pstr e), ("raw_content", .pstr c)])
      = .ok [] := by
  have hkeys : ∀ k : String, k ≠ "json_parse_error" → k ≠ "raw_content" →
      List.lookup k
        ([("json_parse_error", PVal.pstr e), ("raw_content", PVal.pstr c)] : PDict)
        = none := by
    intro k h1 h2
    rw [lookup_cons_ne _ _ _ _ h1, lookup_cons_ne _ _ _ _ h2]
    rfl
  have hbase : tableEntries field_mappings
      (fun af => List.lookup af
        ([("json_parse_error", PVal.pstr e), ("raw_content", PVal.pstr c)] : PDict))
      = [] := by
    apply tableEntries_eq_nil
    intro r hr
    have hne : ∀ p ∈ field_mappings,
        p.2 ≠ "json_parse_error" ∧ p.2 ≠ "raw_content" := by decide
    exact hkeys r.2 (hne r hr).1 (hne r hr).2
  have hsm : emailSummaryEntries
      [("json_parse_error", PVal.pstr e), ("raw_content", PVal.pstr c)] = .ok [] := by
    unfold emailSummaryEntries
    rw [hkeys "emailSummary" (by decide) (by decide)]
  have harr : ∀ dst src : String, src ≠ "json_parse_error" → src ≠ "raw_content" →
      arrayEntry [("json_parse_error", PVal.pstr e), ("raw_content", PVal.pstr c)]
        dst src = .ok [] := by
    intro dst src h1 h2
    unfold arrayEntry
    rw [hkeys src h1 h2]
    rfl
  simp only [flatten_api_response]
  rw [hbase, hsm, except_bind_ok,
    harr "api_quality_factors" "qualityFactors" (by decide) (by decide), except_bind_ok,
    harr "api_fraud_factors" "fraudFactors" (by decide) (by decide), except_bind_ok,
    harr "api_summary_notes" "summaryNotes" (by decide) (by decide), except_bind_ok]
  rfl

end Parser

/-! ## Claims C6 and C7 -/

/-- C6: when the RAW API RESPONSE section is present and its cleaned
content fails to decode, the parser does not raise: it returns the
marker dict carrying the decode error message and the substring that
failed to parse; moreover the surrounding parse_description stores that
marker under raw_api_response and completes without a parse_error, so
the record is retained. -/
theorem claim_C6 : ∀ (json_loads : String → Except String PVal)
    (description content e : String),
    Parser.sectionContent "=== RAW API RESPONSE ===" description = some content →
    json_loads (Parser.clean_json_content content) = .error e →
    Parser.extract_raw_api_response json_loads description
      = some (.pdict [("json_parse_error", .pstr e),
          ("raw_content", .pstr (Parser.clean_json_content content))]) ∧
    List.lookup "parse_error"
      (Parser.parse_description json_loads (.pstr description)) = none ∧
    List.lookup "raw_api_response"
      (Parser.parse_description json_loads (.pstr description))
      = some (.pdict [("json_parse_error", .pstr e),
          ("raw_content", .pstr (Parser.clean_json_content content))]) := by
  intro jl d content e hc hj
  have hext : Parser.extract_raw_api_response jl d
      = some (.pdict [("json_parse_error", .pstr e),
          ("raw_content", .pstr (Parser.clean_json_content content))]) := by
    unfold Parser.extract_raw_api_response
    rw [hc]
    dsimp only
    rw [hj]
  have hdne : d ≠ "" := by
    intro h0
    rw [h0] at hc
    rw [show Parser.sectionContent "=== RAW API RESPONSE ===" "" = none from rfl] at hc
    exact Option.noConfusion hc
  have hbody : Parser.parseDescriptionBody jl d
      = .ok (pyUpdate (Parser.sectionsMerged d)
          [("raw_api_response",
            PVal.pdict [("json_parse_error", .pstr e),
              ("raw_content", .pstr (Parser.clean_json_content content))])]) := by
    unfold Parser.parseDescriptionBody
    rw [hext]
    dsimp only
    have htr : pvalTruthy (PVal.pdict [("json_parse_error", PVal.pstr e),
        ("raw_content", PVal.pstr (Parser.clean_json_content content))]) = true := rfl
    rw [if_pos htr]
    rw [Parser.flatten_marker, except_bind_ok]
    rfl
  have hparse : Parser.parse_description jl (.pstr d)
      = pyUpdate (Parser.sectionsMerged d)
          [("raw_api_response",
            PVal.pdict [("json_parse_error", .pstr e),
              ("raw_content", .pstr (Parser.clean_json_content content))])] := by
    unfold Parser.parse_description
    rw [if_neg (by simp [pvalTruthy, hdne])]
    dsimp only
    rw [hbody]
  have hnod : ((([("raw_api_response",
      PVal.pdict [("json_parse_error", PVal.pstr e),
        ("raw_content", PVal.pstr (Parser.clean_json_content content))])]) : PDict).map
        Prod.fst).Nodup := by
    simp
  refine ⟨hext, ?_, ?_⟩
  · rw [hparse, lookup_pyUpdate _ _ _ hnod,
      lookup_cons_ne _ _ _ _ (by decide : "parse_error" ≠ "raw_api_response"),
      Parser.lookup_sectionsMerged_parse_error]
    rfl
  · rw [hparse, lookup_pyUpdate _ _ _ hnod, lookup_cons_self]
    rfl

/-- C6 (witness): a concrete description whose payload section fails to
decode. -/
theorem claim_C6_witness :
    Parser.extract_raw_api_response stubLoads "=== RAW API RESPONSE ===\nnot json"
      = some (.pdict [("json_parse_error",
            .pstr "Expecting value: line 1 column 1 (char 0)"),
          ("raw_content",
            .pstr (Parser.clean_json_content "not json"))]) ∧
    List.lookup "parse_error"
      (Parser.parse_description stubLoads (.pstr "=== RAW API RESPONSE ===\nnot json"))
      = none ∧
    List.lookup "raw_api_response"
      (Parser.parse_description stubLoads (.pstr "=== RAW API RESPONSE ===\nnot json"))
      = some (.pdict [("json_parse_error",
            .pstr "Expecting value: line 1 column 1 (char 0)"),
          ("raw_content",
            .pstr (Parser.clean_json_content "not json"))]) :=
  claim_C6 stubLoads "=== RAW API RESPONSE ===\nnot json" "not json"
    "Expecting value: line 1 column 1 (char 0)" (by rfl) (by rfl)

/-- C7 (counterexample): a payload whose emailSummary substructure is
present but empty produces four explicit None entries in the flattened
output — for every absent leaf there IS an entry (a None placeholder),
contradicting the claim. -/
theorem claim_C7_counterexample :
    Parser.flatten_api_response (.pdict [("emailSummary", .pdict [])])
      = .ok [("api_total_emails", PVal.pnone), ("api_valid_emails", PVal.pnone),
             ("api_sendable_emails", PVal.pnone),
             ("api_email_summary_quality_score", PVal.pnone)] := rfl

/-- C7 (amended): on a successfully flattened payload dict, each of the
26 top-level mapped keys is copied exactly (present keys appear under
the prefixed name with the same value, absent keys yield no entry); but
once emailSummary is present as a dict, all four of its leaves are
materialised, an absent leaf yielding an explicit None entry (a
placeholder); when emailSummary is absent its leaves yield no entries;
the three array-valued fields are joined to comma-separated strings. -/
theorem claim_C7 : ∀ (fields fl : PDict),
    Parser.flatten_api_response (.pdict fields) = .ok fl →
    (∀ dst src, (dst, src) ∈ Parser.field_mappings →
      List.lookup dst fl = List.lookup src fields) ∧
    (∀ es, List.lookup "emailSummary" fields = some (.pdict es) →
      ∀ dst src, (dst, src) ∈ Parser.email_summary_leaves →
        List.lookup dst fl = some ((List.lookup src es).getD .pnone)) ∧
    (List.lookup "emailSummary" fields = none →
      ∀ dst src, (dst, src) ∈ Parser.email_summary_leaves →
        List.lookup dst fl = none) ∧
    (∀ v j, List.lookup "qualityFactors" fields = some v →
      Parser.pyJoinComma v = .ok j →
      List.lookup "api_quality_factors" fl = some (.pstr j)) ∧
    (∀ v j, List.lookup "fraudFactors" fields = some v →
      Parser.pyJoinComma v = .ok j →
      List.lookup "api_fraud_factors" fl = some (.pstr j)) ∧
    (∀ v j, List.lookup "summaryNotes" fields = some v →
      Parser.pyJoinComma v = .ok j →
      List.lookup "api_summary_notes" fl = some (.pstr j)) := by
  intro fields fl h
  simp only [Parser.flatten_api_response] at h
  rcases hsm : Parser.emailSummaryEntries fields with e1 | sm <;> rw [hsm] at h
  · exact absurd h (by simp [except_bind_error])
  rw [except_bind_ok] at h
  rcases hqf : Parser.arrayEntry fields "api_quality_factors" "qualityFactors"
    with e1 | qf <;> rw [hqf] at h
  · exact absurd h (by simp [except_bind_error])
  rw [except_bind_ok] at h
  rcases hff : Parser.arrayEntry fields "api_fraud_factors" "fraudFactors"
    with e1 | ff <;> rw [hff] at h
  · exact absurd h (by simp [except_bind_error])
  rw [except_bind_ok] at h
  rcases hsn : Parser.arrayEntry fields "api_summary_notes" "summaryNotes"
    with e1 | sn <;> rw [hsn] at h
  · exact absurd h (by simp [except_bind_error])
  rw [except_bind_ok] at h
  injection h with h
  subst h
  refine ⟨?_, ?_, ?_, ?_, ?_, ?_⟩
  · intro dst src hmem
    have hd : ∀ p ∈ Parser.field_mappings,
        p.1 ∉ Parser.email_summary_leaves.map Prod.fst ∧
        p.1 ≠ "api_quality_factors" ∧ p.1 ≠ "api_fraud_factors" ∧
        p.1 ≠ "api_summary_notes" := by decide
    obtain ⟨hd1, hd2, hd3, hd4⟩ := hd (dst, src) hmem
    rw [lookup_append, lookup_append, lookup_append, lookup_append,
      lookup_tableEntries_of_mem _ _ _ _ (by decide) hmem,
      Parser.emailSummaryEntries_lookup_ne fields sm hsm dst hd1,
      Parser.arrayEntry_lookup_ne _ _ _ _ hqf dst hd2,
      Parser.arrayEntry_lookup_ne _ _ _ _ hff dst hd3,
      Parser.arrayEntry_lookup_ne _ _ _ _ hsn dst hd4]
    cases List.lookup src fields <;> rfl
  · intro es hes dst src hmem
    rcases Parser.emailSummaryEntries_cases fields sm hsm with ⟨hne, rfl⟩ | ⟨es', hes', rfl⟩
    · exact absurd hes (hne es)
    · rw [hes] at hes'
      injection hes' with hes2
      injection hes2 with hes3
      subst hes3
      have hd : ∀ p ∈ Parser.email_summary_leaves,
          p.1 ∉ Parser.field_mappings.map Prod.fst ∧
          p.1 ≠ "api_quality_factors" ∧ p.1 ≠ "api_fraud_factors" ∧
          p.1 ≠ "api_summary_notes" := by decide
      obtain ⟨hd1, hd2, hd3, hd4⟩ := hd (dst, src) hmem
      rw [lookup_append, lookup_append, lookup_append, lookup_append,
        lookup_tableEntries_of_not_mem _ _ _ hd1,
        Parser.summary_map_eq_tableEntries,
        lookup_tableEntries_of_mem _ _ _ _ (by decide) hmem,
        Parser.arrayEntry_lookup_ne _ _ _ _ hqf dst hd2,
        Parser.arrayEntry_lookup_ne _ _ _ _ hff dst hd3,
        Parser.arrayEntry_lookup_ne _ _ _ _ hsn dst hd4]
      rfl
  · intro hes dst src hmem
    rcases Parser.emailSummaryEntries_cases fields sm hsm with ⟨hne, rfl⟩ | ⟨es', hes', rfl⟩
    · have hd : ∀ p ∈ Parser.email_summary_leaves,
          p.1 ∉ Parser.field_mappings.map Prod.fst ∧
          p.1 ≠ "api_quality_factors" ∧ p.1 ≠ "api_fraud_factors" ∧
          p.1 ≠ "api_summary_notes" := by decide
      obtain ⟨hd1, hd2, hd3, hd4⟩ := hd (dst, src) hmem
      rw [lookup_append, lookup_append, lookup_append, lookup_append,
        lookup_tableEntries_of_not_mem _ _ _ hd1,
        Parser.arrayEntry_lookup_ne _ _ _ _ hqf dst hd2,
        Parser.arrayEntry_lookup_ne _ _ _ _ hff dst hd3,
        Parser.arrayEntry_lookup_ne _ _ _ _ hsn dst hd4]
      rfl
    · rw [hes] at hes'
      exact Option.noConfusion hes'
  · intro v j hv hj
    rcases Parser.arrayEntry_cases fields _ _ qf hqf with ⟨hn0, rfl⟩ | ⟨v', j', hv', hj', rfl⟩
    · rw [hv] at hn0
      exact Option.noConfusion hn0
    · rw [hv] at hv'
      injection hv' with hv2
      subst hv2
      rw [hj] at hj'
      injection hj' with hj2
      subst hj2
      rw [lookup_append, lookup_append, lookup_append, lookup_append,
        lookup_tableEntries_of_not_mem _ _ _ (by decide),
        Parser.emailSummaryEntries_lookup_ne fields sm hsm _ (by decide),
        lookup_cons_self,
        Parser.arrayEntry_lookup_ne _ _ _ _ hff _ (by decide),
        Parser.arrayEntry_lookup_ne _ _ _ _ hsn _ (by decide)]
      rfl
  · intro v j hv hj
    rcases Parser.arrayEntry_cases fields _ _ ff hff with ⟨hn0, rfl⟩ | ⟨v', j', hv', hj', rfl⟩
    · rw [hv] at hn0
      exact Option.noConfusion hn0
    · rw [hv] at hv'
      injection hv' with hv2
      subst hv2
      rw [hj] at hj'
      injection hj' with hj2
      subst hj2
      rw [lookup_append, lookup_append, lookup_append, lookup_append,
        lookup_tableEntries_of_not_mem _ _ _ (by decide),
        Parser.emailSummaryEntries_lookup_ne fields sm hsm _ (by decide),
        Parser.arrayEntry_lookup_ne _ _ _ _ hqf _ (by decide),
        lookup_cons_self,
        Parser.arrayEntry_lookup_ne _ _ _ _ hsn _ (by decide)]
      rfl
  · intro v j hv hj
    rcases Parser.arrayEntry_cases fields _ _ sn hsn with ⟨hn0, rfl⟩ | ⟨v', j', hv', hj', rfl⟩
    · rw [hv] at hn0
      exact Option.noConfusion hn0
    · rw [hv] at hv'
      injection hv' with hv2
      subst hv2
      rw [hj] at hj'
      injection hj' with hj2
      subst hj2
      rw [lookup_append, lookup_append, lookup_append, lookup_append,
        lookup_tableEntries_of_not_mem _ _ _ (by decide),
        Parser.emailSummaryEntries_lookup_ne fields sm hsm _ (by decide),
        Parser.arrayEntry_lookup_ne _ _ _ _ hqf _ (by decide),
        Parser.arrayEntry_lookup_ne _ _ _ _ hff _ (by decide),
        lookup_cons_self]
      rfl

/-- C7 (witness): the amended statement applied to a concrete payload. -/
theorem claim_C7_witness :
    List.lookup "api_lead_score"
        [("api_lead_score", PVal.pint 8), ("api_state", PVal.pstr "CA"),
         ("api_quality_factors", PVal.pstr "x, y")]
      = List.lookup "leadScore"
          [("leadScore", PVal.pint 8),
           ("qualityFactors", PVal.plist [PVal.pstr "x", PVal.pstr "y"]),
           ("state", PVal.pstr "CA")] ∧
    List.lookup "api_quality_factors"
        [("api_lead_score", PVal.pint 8), ("api_state", PVal.pstr "CA"),
         ("api_quality_factors", PVal.pstr "x, y")]
      = some (PVal.pstr "x, y") :=
  ⟨(claim_C7 [("leadScore", PVal.pint 8),
      ("qualityFactors", PVal.plist [PVal.pstr "x", PVal.pstr "y"]),
      ("state", PVal.pstr "CA")]
      [("api_lead_score", PVal.pint 8), ("api_state", PVal.pstr "CA"),
       ("api_quality_factors", PVal.pstr "x, y")] (by rfl)).1
      "api_lead_score" "leadScore" (by decide),
   (claim_C7 [("leadScore", PVal.pint 8),
      ("qualityFactors", PVal.plist [PVal.pstr "x", PVal.pstr "y"]),
      ("state", PVal.pstr "CA")]
      [("api_lead_score", PVal.pint 8), ("api_state", PVal.pstr "CA"),
       ("api_quality_factors", PVal.pstr "x, y")] (by rfl)).2.2.2.1
      (PVal.plist [PVal.pstr "x", PVal.pstr "y"]) "x, y" (by rfl) (by rfl)⟩

/-! ## Capture lemmas for the field patterns -/

namespace Parser

lemma searchField_some (label : List Char)
    (rm : List Char → Option (List Char)) :
    ∀ (cs cap : List Char), searchField label rm cs = some cap →
    ∃ rest, rm rest = some cap := by
  intro cs
  induction cs with
  | nil =>
    intro cap h
    exact absurd h (by simp [searchField])
  | cons c cs ih =>
    intro cap h
    unfold searchField at h
    split at h
    · rcases hr : rm ((c :: cs).drop label.length) with _ | cap' <;> rw [hr] at h
      · exact ih cap h
      · injection h with h
        subst h
        exact ⟨_, hr⟩
    · exact ih cap h

lemma rmDigits_spec (cs ds : List Char) (h : rmDigits cs = some ds) :
    ds ≠ [] ∧ ∀ c ∈ ds, c.isDigit = true := by
  simp only [rmDigits] at h
  split at h
  · exact Option.noConfusion h
  · rename_i hne
    injection h with h
    subst h
    refine ⟨fun heq => hne (by rw [heq]; rfl), ?_⟩
    intro c hc
    exact List.mem_takeWhile_imp hc

lemma rmDigitsPercent_spec (cs ds : List Char) (h : rmDigitsPercent cs = some ds) :
    ds ≠ [] ∧ ∀ c ∈ ds, c.isDigit = true := by
  simp only [rmDigitsPercent] at h
  split at h
  · exact Option.noConfusion h
  · rename_i hne
    split at h
    · injection h with h
      subst h
      refine ⟨fun heq => hne (by rw [heq]; rfl), ?_⟩
      intro c hc
      exact List.mem_takeWhile_imp hc
    · exact Option.noConfusion h

lemma dropWhile_eq_self_of_all (p : Char → Bool) (cs : List Char)
    (h : ∀ c ∈ cs, p c = false) : cs.dropWhile p = cs := by
  cases cs with
  | nil => rfl
  | cons c t =>
    rw [List.dropWhile_cons, if_neg (by simp [h c (by simp)])]

lemma stripL_of_all_not_ws (cs : List Char) (h : ∀ c ∈ cs, isPyWs c = false) :
    stripL cs = cs := by
  unfold stripL
  rw [dropWhile_eq_self_of_all _ _ h,
    dropWhile_eq_self_of_all _ _
      (fun c hc => h c ((List.mem_reverse).mp hc)),
    List.reverse_reverse]

lemma digit_not_ws (c : Char) (h : c.isDigit = true) : isPyWs c = false := by
  by_contra hc
  have hw : isPyWs c = true := by
    cases hval : isPyWs c
    · exact absurd hval hc
    · rfl
  unfold isPyWs at hw
  simp only [Bool.or_eq_true, decide_eq_true_eq] at hw
  rcases hw with ((((h0 | h0) | h0) | h0) | h0) | h0 <;> subst h0 <;>
    exact absurd h (by decide)

lemma digitsToNat_isSome (cs : List Char) (h1 : cs ≠ [])
    (h2 : ∀ c ∈ cs, c.isDigit = true) : ∃ n, digitsToNat cs = some n := by
  have hcond : (!cs.isEmpty && cs.all (·.isDigit)) = true := by
    cases cs with
    | nil => exact absurd rfl h1
    | cons c t =>
      simp only [List.isEmpty_cons, Bool.not_false, Bool.true_and, List.all_eq_true]
      intro x hx
      exact h2 x hx
  refine ⟨cs.foldl (fun acc c => acc * 10 + (c.toNat - 48)) 0, ?_⟩
  unfold digitsToNat
  rw [if_pos hcond]

lemma coerceInt_digits (cap : List Char) (h1 : cap ≠ [])
    (h2 : ∀ c ∈ cap, c.isDigit = true) : ∃ n : Nat, coerceInt cap = .pint n := by
  obtain ⟨n, hn⟩ : ∃ n, digitsToNat (stripL cap) = some n := by
    rw [stripL_of_all_not_ws cap (fun c hc => digit_not_ws c (h2 c hc))]
    exact digitsToNat_isSome cap h1 h2
  refine ⟨n, ?_⟩
  unfold coerceInt
  dsimp only
  rw [hn]

lemma coerceStrOrNull_not_null (cap : List Char) (s : String)
    (h : coerceStrOrNull cap = .pstr s) : lowerStr s ≠ "null" := by
  simp only [coerceStrOrNull] at h
  split at h
  · exact PVal.noConfusion h
  · rename_i hne
    injection h with h
    subst h
    exact hne

/-- Characterise a successful lookup in a section: the section was
present and the field pattern matched, the stored value being the
coercion of the capture. -/
lemma lookup_extractSection_some (header : String)
    (rows : List (String × FieldSpec)) (d k : String) (spec : FieldSpec)
    (v : PVal) (hn : (rows.map Prod.fst).Nodup) (hm : (k, spec) ∈ rows)
    (hv : List.lookup k (extractSection header rows d) = some v) :
    ∃ content cap, sectionContent header d = some content ∧
      spec.1 content.toList = some cap ∧ v = spec.2 cap := by
  unfold extractSection at hv
  cases hc : sectionContent header d <;> rw [hc] at hv
  · exact Option.noConfusion hv
  · rename_i content
    rw [lookup_tableEntries_of_mem _ _ _ _ hn hm] at hv
    cases hcap : spec.1 content.toList <;> rw [hcap] at hv
    · exact Option.noConfusion hv
    · rename_i cap
      injection hv with hv
      exact ⟨content, cap, rfl, hcap, hv.symm⟩

/-- A numeric lead-section field, when present, is an int (the digit
capture always parses; the string fallback is dead code). -/
lemma lead_numeric_field (d fieldName label : String)
    (rm : List Char → Option (List Char))
    (hspec : ∀ cs ds, rm cs = some ds → ds ≠ [] ∧ ∀ c ∈ ds, c.isDigit = true)
    (hm : (fieldName, (fieldRow fieldName label rm coerceInt).2)
        ∈ lead_validation_fields)
    (v : PVal)
    (hv : List.lookup fieldName (extract_lead_validation_section d) = some v) :
    ∃ n : Nat, v = .pint n := by
  obtain ⟨content, cap, hc, hcap, hvv⟩ :=
    lookup_extractSection_some _ _ _ _ _ _
      (by rw [lead_fields_keys]; decide) hm hv
  obtain ⟨rest, hrm⟩ := searchField_some _ _ _ _ hcap
  obtain ⟨h1, h2⟩ := hspec _ _ hrm
  obtain ⟨n, hn⟩ := coerceInt_digits cap h1 h2
  refine ⟨n, ?_⟩
  rw [hvv]
  exact hn

end Parser

/-! ## Claims C8 and C9 -/

/-- C8 (counterexample): in the lead-validation section the literal
token null is stored as the string "null", not as None — the section
has no null rule, contradicting the for-every-extracted-field claim. -/
theorem claim_C8_counterexample :
    Parser.extract_lead_validation_section
        "=== LEAD VALIDATION RESULTS ===\nRecommendation: null\n"
      = [("recommendation", PVal.pstr "null")] ∧
    PVal.pstr "null" ≠ PVal.pnone :=
  ⟨rfl, fun h => PVal.noConfusion h⟩

/-- C8 (amended): numeric fields are always stored as ints (the
fallback never fires since the digit pattern guarantees a parseable
capture) and never raise; the boolean field stores true/false from the
case-insensitive token; the null-to-None rule holds in the phone
section string fields (and gibberish_score), while the lead-validation
section stores every capture as a plain string — the literal null
included; a field whose pattern finds no match is absent, and a missing
section yields the empty dict. -/
theorem claim_C8 :
    (∀ d v, List.lookup "lead_score" (Parser.extract_lead_validation_section d)
      = some v → ∃ n : Nat, v = .pint n) ∧
    (∀ d v, List.lookup "quality_score" (Parser.extract_lead_validation_section d)
      = some v → ∃ n : Nat, v = .pint n) ∧
    (∀ d v, List.lookup "data_quality" (Parser.extract_lead_validation_section d)
      = some v → ∃ n : Nat, v = .pint n) ∧
    (∀ d v, List.lookup "fraud_score" (Parser.extract_lead_validation_section d)
      = some v → ∃ n : Nat, v = .pint n) ∧
    (∀ d v, List.lookup "phone_valid" (Parser.extract_phone_validation_section d)
      = some v → v = .pbool true ∨ v = .pbool false) ∧
    (∀ d s, List.lookup "phone_carrier" (Parser.extract_phone_validation_section d)
      = some (.pstr s) → lowerStr s ≠ "null") ∧
    (∀ d s, List.lookup "phone_type" (Parser.extract_phone_validation_section d)
      = some (.pstr s) → lowerStr s ≠ "null") ∧
    (∀ d s, List.lookup "phone_national_format"
        (Parser.extract_phone_validation_section d)
      = some (.pstr s) → lowerStr s ≠ "null") ∧
    (∀ d v, List.lookup "recommendation" (Parser.extract_lead_validation_section d)
      = some v → ∃ s, v = .pstr s) ∧
    (∀ d content,
      Parser.sectionContent "=== LEAD VALIDATION RESULTS ===" d = some content →
      Parser.searchField "Lead Score:".toList Parser.rmDigits content.toList = none →
      List.lookup "lead_score" (Parser.extract_lead_validation_section d) = none) ∧
    (∀ d, Parser.sectionContent "=== LEAD VALIDATION RESULTS ===" d = none →
      Parser.extract_lead_validation_section d = []) ∧
    (∀ d content,
      Parser.sectionContent "=== PHONE VALIDATION ===" d = some content →
      Parser.searchField "Carrier:".toList Parser.rmRestOfLine content.toList = none →
      List.lookup "phone_carrier" (Parser.extract_phone_validation_section d) = none) := by
  refine ⟨?_, ?_, ?_, ?_, ?_, ?_, ?_, ?_, ?_, ?_, ?_, ?_⟩
  · intro d v hv
    exact Parser.lead_numeric_field d "lead_score" "Lead Score:" Parser.rmDigits
      Parser.rmDigits_spec (List.mem_cons_self _ _) v hv
  · intro d v hv
    exact Parser.lead_numeric_field d "quality_score" "Quality Score:" Parser.rmDigits
      Parser.rmDigits_spec
      (List.mem_cons_of_mem _ (List.mem_cons_self _ _)) v hv
  · intro d v hv
    exact Parser.lead_numeric_field d "data_quality" "Data Quality:"
      Parser.rmDigitsPercent Parser.rmDigitsPercent_spec
      (List.mem_cons_of_mem _ (List.mem_cons_of_mem _ (List.mem_cons_self _ _))) v hv
  · intro d v hv
    exact Parser.lead_numeric_field d "fraud_score" "Fraud Score:" Parser.rmDigits
      Parser.rmDigits_spec
      (List.mem_cons_of_mem _ (List.mem_cons_of_mem _
        (List.mem_cons_of_mem _ (List.mem_cons_self _ _)))) v hv
  · intro d v hv
    obtain ⟨content, cap, hc, hcap, hvv⟩ :=
      Parser.lookup_extractSection_some _ Parser.phone_validation_fields _ _ _ _
        (by rw [Parser.phone_fields_keys]; decide) (List.mem_cons_self _ _) hv
    rw [hvv]
    show Parser.coerceBool cap = PVal.pbool true ∨ Parser.coerceBool cap = PVal.pbool false
    unfold Parser.coerceBool
    cases hdec : (decide (lowerStr (String.mk (stripL cap)) = "true"))
    · right
      rfl
    · left
      rfl
  · intro d s hv
    obtain ⟨content, cap, hc, hcap, hvv⟩ :=
      Parser.lookup_extractSection_some _ Parser.phone_validation_fields _ _ _ _
        (by rw [Parser.phone_fields_keys]; decide)
        (List.mem_cons_of_mem _ (List.mem_cons_self _ _)) hv
    exact Parser.coerceStrOrNull_not_null cap s hvv.symm
  · intro d s hv
    obtain ⟨content, cap, hc, hcap, hvv⟩ :=
      Parser.lookup_extractSection_some _ Parser.phone_validation_fields _ _ _ _
        (by rw [Parser.phone_fields_keys]; decide)
        (List.mem_cons_of_mem _ (List.mem_cons_of_mem _ (List.mem_cons_self _ _))) hv
    exact Parser.coerceStrOrNull_not_null cap s hvv.symm
  · intro d s hv
    obtain ⟨content, cap, hc, hcap, hvv⟩ :=
      Parser.lookup_extractSection_some _ Parser.phone_validation_fields _ _ _ _
        (by rw [Parser.phone_fields_keys]; decide)
        (List.mem_cons_of_mem _ (List.mem_cons_of_mem _
          (List.mem_cons_of_mem _ (List.mem_cons_self _ _)))) hv
    exact Parser.coerceStrOrNull_not_null cap s hvv.symm
  · intro d v hv
    obtain ⟨content, cap, hc, hcap, hvv⟩ :=
      Parser.lookup_extractSection_some _ Parser.lead_validation_fields _ _ _ _
        (by rw [Parser.lead_fields_keys]; decide)
        (List.mem_cons_of_mem _ (List.mem_cons_of_mem _
          (List.mem_cons_of_mem _ (List.mem_cons_of_mem _ (List.mem_cons_self _ _))))) hv
    exact ⟨_, by rw [hvv]; rfl⟩
  · intro d content hc hsearch
    unfold Parser.extract_lead_validation_section Parser.extractSection
    rw [hc]
    dsimp only
    rw [lookup_tableEntries_of_mem Parser.lead_validation_fields _ _
      (Parser.fieldRow "lead_score" "Lead Score:" Parser.rmDigits Parser.coerceInt).2
      (by rw [Parser.lead_fields_keys]; decide) (List.mem_cons_self _ _)]
    show (Parser.searchField "Lead Score:".toList Parser.rmDigits
        content.toList).map Parser.coerceInt = none
    rw [hsearch]
    rfl
  · intro d hc
    unfold Parser.extract_lead_validation_section
    exact Parser.extractSection_of_no_section _ _ _ hc
  · intro d content hc hsearch
    unfold Parser.extract_phone_validation_section Parser.extractSection
    rw [hc]
    dsimp only
    rw [lookup_tableEntries_of_mem Parser.phone_validation_fields _ _
      (Parser.fieldRow "phone_carrier" "Carrier:" Parser.rmRestOfLine
        Parser.coerceStrOrNull).2
      (by rw [Parser.phone_fields_keys]; decide)
      (List.mem_cons_of_mem _ (List.mem_cons_self _ _))]
    show (Parser.searchField "Carrier:".toList Parser.rmRestOfLine
        content.toList).map Parser.coerceStrOrNull = none
    rw [hsearch]
    rfl

/-- C8 (witness): the amended statement applied to a concrete
description with a numeric field, an uppercase boolean token, and a
null carrier. -/
theorem claim_C8_witness :
    (∃ n : Nat, PVal.pint 85 = PVal.pint n) ∧
    (PVal.pbool true = PVal.pbool true ∨ PVal.pbool true = PVal.pbool false) :=
  ⟨claim_C8.1
      "=== LEAD VALIDATION RESULTS ===\nLead Score: 85\n=== PHONE VALIDATION ===\nPhone Valid: TRUE\nCarrier: null\n"
      (PVal.pint 85) (by rfl),
   claim_C8.2.2.2.2.1
      "=== LEAD VALIDATION RESULTS ===\nLead Score: 85\n=== PHONE VALIDATION ===\nPhone Valid: TRUE\nCarrier: null\n"
      (PVal.pbool true) (by rfl)⟩

/-- Forget the wall-clock field of a validation result. -/
def eraseTimestamp (r : LeadRules.ValidationResult) : LeadRules.ValidationResult :=
  { r with validation_timestamp := 0 }

/-- C9 (counterexample): validate_lead stamps pd.Timestamp.now() into
every result, so two runs at different instants return different
records even on identical input — the two-run equality of the claim
fails. -/
theorem claim_C9_counterexample :
    LeadRules.validate_lead stubLibs 1 [] ≠ LeadRules.validate_lead stubLibs 2 [] := by
  intro h
  have h2 := congrArg (Except.map LeadRules.ValidationResult.validation_timestamp) h
  rw [show (LeadRules.validate_lead stubLibs 1 []).map
        LeadRules.ValidationResult.validation_timestamp = .ok 1 from rfl,
    show (LeadRules.validate_lead stubLibs 2 []).map
        LeadRules.ValidationResult.validation_timestamp = .ok 2 from rfl] at h2
  injection h2 with h3
  exact absurd h3 (by decide)

/-- C9 (amended): parse_description is a pure function of the decoder
and the description (its embedding takes no clock), and validate_lead
is deterministic in everything except the validation_timestamp field:
erasing that field, two runs at any two clock readings agree exactly. -/
theorem claim_C9 : ∀ (libs : LeadRules.Libs) (t₁ t₂ : Nat) (ld : PDict),
    (LeadRules.validate_lead libs t₁ ld).map eraseTimestamp
      = (LeadRules.validate_lead libs t₂ ld).map eraseTimestamp := by
  intro libs t₁ t₂ ld
  unfold LeadRules.validate_lead
  cases LeadRules.validate_email_check libs (dictGet ld "Email")
  case error => rfl
  case ok email =>
  cases LeadRules.validate_phone_check libs (dictGet ld "Phone")
  case error => rfl
  case ok phone =>
  cases LeadRules.validate_name_check (dictGet ld "FirstName") (dictGet ld "LastName")
  case error => rfl
  case ok name =>
  cases LeadRules.validate_company_check (dictGet ld "Company")
  case error => rfl
  case ok company =>
  cases FraudDetection.calculate_fraud_score ld
  case error => rfl
  case ok fraud => rfl

/-! ## Claims C5 and C10 -/

lemma taskMetadata_keys (row : PDict) : (Parser.taskMetadata row).map Prod.fst
    = ["task_id", "who_id", "what_id", "subject", "lead_source",
       "lead_company", "lead_email", "created_date", "last_modified_date"] := rfl

lemma lookup_taskMetadata_parse_error (row : PDict) :
    List.lookup "parse_error" (Parser.taskMetadata row) = none :=
  (lookup_eq_none_iff _ _).mpr (by rw [taskMetadata_keys]; decide)

/-- The parse_error flag of a batched record equals that of its
parse_description output: the metadata update writes other keys only. -/
lemma parse_batch_record_error (json_loads : String → Except String PVal)
    (row : PDict) :
    (List.lookup "parse_error"
      (pyUpdate
        (Parser.parse_description json_loads (dictGetD row "Description" (.pstr "")))
        (Parser.taskMetadata row))).isSome
    = (List.lookup "parse_error"
        (Parser.parse_description json_loads
          (dictGetD row "Description" (.pstr "")))).isSome := by
  rw [lookup_pyUpdate _ _ _ (by rw [taskMetadata_keys]; decide),
    lookup_taskMetadata_parse_error]
  rfl

lemma count_parse_batch (json_loads : String → Except String PVal) :
    ∀ rows : List PDict,
    Parser.count_parsing_errors (Parser.parse_batch json_loads rows)
      = (rows.filter (fun row =>
          (List.lookup "parse_error"
            (Parser.parse_description json_loads
              (dictGetD row "Description" (.pstr "")))).isSome)).length := by
  intro rows
  induction rows with
  | nil => rfl
  | cons row rows ih =>
    unfold Parser.count_parsing_errors Parser.parse_batch
    rw [List.map_cons, List.filter_cons, List.filter_cons,
      parse_batch_record_error]
    cases hb : (List.lookup "parse_error"
        (Parser.parse_description json_loads
          (dictGetD row "Description" (.pstr "")))).isSome
    · exact ih
    · simp only [if_pos, List.length_cons]
      exact congrArg (· + 1) ih

/-- C5 (counterexample): a one-record batch whose lead has an explicit
None email makes validate_lead raise inside the fraud engine, and
validate_batch — which has no per-record exception handling — propagates
the exception out of the batch orchestrator instead of recording it. -/
theorem claim_C5_counterexample :
    LeadRules.validate_batch stubLibs 0 [[("Email", PVal.pnone)]]
      = .error "AttributeError: object has no attribute lower" := rfl

/-- C5 (amended): parse_batch maps N input rows to exactly N output
records and never raises, the K records whose parse fails being exactly
those carrying a parse_error field, and the ETL summary counter reports
exactly K; validate_batch, by contrast, catches nothing — when every
record validates it returns N results (which carry no error field at
all), and a single raising record aborts the whole batch (see the
counterexample). -/
theorem claim_C5 :
    (∀ (json_loads : String → Except String PVal) (rows : List PDict),
      (Parser.parse_batch json_loads rows).length = rows.length ∧
      Parser.count_parsing_errors (Parser.parse_batch json_loads rows)
        = (rows.filter (fun row =>
            (List.lookup "parse_error"
              (Parser.parse_description json_loads
                (dictGetD row "Description" (.pstr "")))).isSome)).length) ∧
    (∀ (libs : LeadRules.Libs) (now : Nat) (rows : List PDict)
        (out : List LeadRules.ValidationResult),
      LeadRules.validate_batch libs now rows = .ok out →
      out.length = rows.length) := by
  constructor
  · intro jl rows
    exact ⟨List.length_map _ _, count_parse_batch jl rows⟩
  · intro libs now rows out h
    exact mapM_ok_length _ rows out h

/-- C5 (witness): a two-row batch with one failing description (its
payload array holds a non-string, so the join raises and is caught into
parse_error) and one clean row. -/
theorem claim_C5_witness :
    (Parser.parse_batch
        (fun _ => .ok (.pdict [("qualityFactors", PVal.pint 5)]))
        [[("Id", PVal.pstr "a"),
          ("Description", PVal.pstr "=== RAW API RESPONSE ===\nz")],
         [("Id", PVal.pstr "b")]]).length = 2 ∧
    ([] : List LeadRules.ValidationResult).length = ([] : List PDict).length :=
  ⟨((claim_C5.1 (fun _ => .ok (.pdict [("qualityFactors", PVal.pint 5)]))
      [[("Id", PVal.pstr "a"),
        ("Description", PVal.pstr "=== RAW API RESPONSE ===\nz")],
       [("Id", PVal.pstr "b")]]).1),
   claim_C5.2 stubLibs 0 [] [] (by rfl)⟩

/-- C10: an empty or absent Description yields the empty parse mapping —
no raw_description, no sections, no error marker — so the batch record
is the copied task metadata alone and the ETL parsing-error counter does
not count it. -/
theorem claim_C10 : ∀ (json_loads : String → Except String PVal) (row : PDict),
    pvalTruthy (dictGetD row "Description" (.pstr "")) = false →
    Parser.parse_description json_loads (dictGetD row "Description" (.pstr "")) = [] ∧
    Parser.parse_batch json_loads [row] = [Parser.taskMetadata row] ∧
    Parser.count_parsing_errors (Parser.parse_batch json_loads [row]) = 0 := by
  intro jl row h
  have h1 : Parser.parse_description jl (dictGetD row "Description" (.pstr "")) = [] := by
    unfold Parser.parse_description
    rw [if_pos (by simp [h])]
  have h2 : Parser.parse_batch jl [row] = [Parser.taskMetadata row] := by
    unfold Parser.parse_batch
    rw [List.map_cons, h1,
      pyUpdate_eq_append [] _ (fun k _ => rfl) (by rw [taskMetadata_keys]; decide)]
    rfl
  refine ⟨h1, h2, ?_⟩
  rw [show Parser.count_parsing_errors (Parser.parse_batch jl [row])
      = Parser.count_parsing_errors [Parser.taskMetadata row] from by rw [h2]]
  unfold Parser.count_parsing_errors
  rw [List.filter_cons,
    show (List.lookup "parse_error" (Parser.taskMetadata row)).isSome = false from by
      rw [lookup_taskMetadata_parse_error]; rfl]
  rfl

/-- C10 (witness): a concrete row without a Description column. -/
theorem claim_C10_witness :
    Parser.parse_description stubLoads
        (dictGetD [("Id", PVal.pstr "t1")] "Description" (.pstr "")) = [] ∧
    Parser.parse_batch stubLoads [[("Id", PVal.pstr "t1")]]
      = [Parser.taskMetadata [("Id", PVal.pstr "t1")]] ∧
    Parser.count_parsing_errors (Parser.parse_batch stubLoads [[("Id", PVal.pstr "t1")]])
      = 0 :=
  claim_C10 stubLoads [("Id", PVal.pstr "t1")] (by rfl)

end LVR
